import Mathlib

/-!
Verification development for the uptime-monitor repository.

Shallow embedding conventions:
* Timestamps are modelled as epoch milliseconds (`Nat`).  The source keeps
  some timestamps as ISO strings and converts back with
  `new Date(s).getTime()`; the round trip is the identity on the millisecond
  value, so the embedding works with the millisecond value directly.
* JavaScript subtractions that may go negative (`Date.now() - x`) are
  modelled in `Int` via casts, so no truncation is introduced.
* Optional numeric configuration fields use `Option Nat`; the JS idiom
  `field || default` (where both `undefined` and `0` are falsy) is modelled
  by `jsOr`.
* The HTTP transport and the wall clock are oracles passed in as arguments;
  everything downstream of them is translated from the source.
-/

namespace Uptime

/-- JS `v || d` for an optional numeric field: `undefined` and `0` both fall
back to the default `d` (source: `alerts.retry_count || 3` etc.). -/
def jsOr (v : Option Nat) (d : Nat) : Nat :=
  match v with
  | some n => if n = 0 then d else n
  | none => d

/-- One day in milliseconds. -/
def dayMs : Nat := 24 * 60 * 60 * 1000

/-- One hour in milliseconds. -/
def hourMs : Nat := 60 * 60 * 1000

/-- TLS certificate metadata attached to a check result
(source: `src/types.ts`, `SslInfo`). -/
structure SslInfo where
  valid : Bool
  validFrom : String
  validTo : String
  issuer : Option String
  subject : Option String
  daysRemaining : Int
deriving DecidableEq, Repr

/-- Outcome of one probe (source: `src/types.ts`, `CheckResult`);
`timestamp` is the creation time in epoch ms. -/
structure CheckResult where
  name : String
  url : String
  success : Bool
  statusCode : Option Nat
  responseTime : Option Nat
  error : Option String
  sslInfo : Option SslInfo
  timestamp : Nat
deriving DecidableEq, Repr

/-- Persisted projection of a check result
(source: `src/types.ts`, `StoredCheck`). -/
structure StoredCheck where
  timestamp : Nat
  success : Bool
  responseTime : Option Nat
  statusCode : Option Nat
  error : Option String
deriving DecidableEq, Repr

/-- Source: `recordCheck` in the store file picks these fields off the
`CheckResult` before pushing it into the per-target log. -/
def toStored (r : CheckResult) : StoredCheck :=
  { timestamp := r.timestamp
    success := r.success
    responseTime := r.responseTime
    statusCode := r.statusCode
    error := r.error }

/-- Alert configuration (source: `src/config.ts`, `AlertsConfig`). -/
structure AlertsConfig where
  retry_count : Option Nat := none
  retry_delay : Option Nat := none
  alert_on_recovery : Option Bool := none
  cooldown_period : Option Nat := none
deriving DecidableEq, Repr

/-- Per-target configuration (source: `src/config.ts`, `UrlConfig`). -/
structure UrlConfig where
  name : String
  category : Option String := none
  url : String
  delay : Option Nat := none
  method : Option String := none
  timeout : Option Nat := none
  expected_status : Option (List Nat) := none
  expected_content : Option String := none
  response_time_threshold : Option Nat := none
  check_ssl : Option Bool := none
deriving DecidableEq, Repr

/-- Global settings (source: `src/config.ts`, `SettingsConfig`). -/
structure SettingsConfig where
  default_timeout : Option Nat := none
  user_agent : Option String := none
  follow_redirects : Option Bool := none
  max_redirects : Option Nat := none
deriving DecidableEq, Repr

/-- Status-page configuration (source: `src/config.ts`, `StatusPageConfig`). -/
structure StatusPageConfig where
  enabled : Option Bool := none
  public : Option Bool := none
  title : Option String := none
  incident_retention_days : Option Nat := none
deriving DecidableEq, Repr

/-! ## Retry policy (source: `checkWithRetry`, `src/index.ts` lines 40-62) -/

/-- Effective number of probe attempts: `alerts.retry_count || 3`. -/
def effRetryCount (alerts : AlertsConfig) : Nat :=
  jsOr alerts.retry_count 3

/-- Effective inter-attempt delay in ms: `(alerts.retry_delay || 10) * 1000`. -/
def effRetryDelayMs (alerts : AlertsConfig) : Nat :=
  jsOr alerts.retry_delay 10 * 1000

/-- Observable actions of the retry loop: one transport invocation
(`checkUrl`, numbered by attempt index) or one `sleep`. -/
inductive RetryEvent where
  | probe (i : Nat)
  | sleep (ms : Nat)
deriving DecidableEq, Repr

/-- The `while (attempts < retryCount)` loop of `checkWithRetry`.  `probe i`
is the outcome of the transport on attempt `i` (0-based); `remaining` is
`retryCount - attempts`.  Returns the result of the loop (`none` models the
`result!` of a loop that never ran) together with the emitted event trace. -/
def retryLoop (probe : Nat → CheckResult) (delay : Nat) :
    Nat → Nat → Option CheckResult × List RetryEvent
  | _, 0 => (none, [])
  | i, 1 =>
    let r := probe i
    (some r, [RetryEvent.probe i])
  | i, rem + 2 =>
    let r := probe i
    if r.success then (some r, [RetryEvent.probe i])
    else
      let rest := retryLoop probe delay (i + 1) (rem + 1)
      (rest.1, RetryEvent.probe i :: RetryEvent.sleep delay :: rest.2)

/-- Source: `checkWithRetry(urlConfig, config)`; the transport call
`checkUrl(urlConfig, config.settings)` is abstracted as the oracle `probe`. -/
def checkWithRetry (probe : Nat → CheckResult) (alerts : AlertsConfig) :
    Option CheckResult × List RetryEvent :=
  retryLoop probe (effRetryDelayMs alerts) 0 (effRetryCount alerts)

/-- Number of transport invocations recorded in a retry trace. -/
def probeCount (tr : List RetryEvent) : Nat :=
  tr.countP (fun e => match e with | RetryEvent.probe _ => true | _ => false)

/-- The expected shape of the trace of `n` attempts starting at index `i`:
probes interleaved with sleeps of `d` ms, no trailing sleep. -/
def attemptTrace (d : Nat) : Nat → Nat → List RetryEvent
  | _, 0 => []
  | i, 1 => [RetryEvent.probe i]
  | i, k + 2 => RetryEvent.probe i :: RetryEvent.sleep d :: attemptTrace d (i + 1) (k + 1)

theorem jsOr_pos (v : Option Nat) (d : Nat) (hd : 0 < d) : 0 < jsOr v d := by
  cases v with
  | none => simpa [jsOr] using hd
  | some n =>
    by_cases h : n = 0 <;> simp [jsOr, h, hd, Nat.pos_of_ne_zero]

theorem retryLoop_spec (probe : Nat → CheckResult) (d : Nat) :
    ∀ remaining i k, k < remaining →
      (∀ j, j < k → (probe (i + j)).success = false) →
      ((probe (i + k)).success = true ∨ k = remaining - 1) →
      retryLoop probe d i remaining = (some (probe (i + k)), attemptTrace d i (k + 1)) := by
  intro remaining
  induction remaining with
  | zero => intro i k hk; omega
  | succ rem ih =>
    intro i k hk hfail hlast
    match rem with
    | 0 =>
      have hk0 : k = 0 := by omega
      subst hk0
      simp [retryLoop, attemptTrace]
    | rem' + 1 =>
      match k with
      | 0 =>
        have hs : (probe i).success = true := by
          rcases hlast with h | h
          · simpa using h
          · omega
        simp [retryLoop, hs, attemptTrace]
      | k' + 1 =>
        have hs0 : (probe i).success = false := by
          have := hfail 0 (Nat.succ_pos k')
          simpa using this
        have hrec := ih (i + 1) k' (by omega)
          (fun j hj => by
            have := hfail (j + 1) (by omega)
            simpa [Nat.add_assoc, Nat.add_comm 1 j] using this)
          (by
            rcases hlast with h | h
            · left
              have he : i + 1 + k' = i + (k' + 1) := by omega
              rw [he]; exact h
            · right; omega)
        have haddr : i + 1 + k' = i + (k' + 1) := by omega
        rw [haddr] at hrec
        simp only [retryLoop, hs0, Bool.false_eq_true, if_false]
        rw [hrec]
        simp [attemptTrace]

theorem retryLoop_isSome (probe : Nat → CheckResult) (d : Nat) :
    ∀ remaining i, 0 < remaining → (retryLoop probe d i remaining).1.isSome = true := by
  intro remaining
  induction remaining with
  | zero => intro i h; omega
  | succ rem ih =>
    intro i _
    match rem with
    | 0 => simp [retryLoop]
    | rem' + 1 =>
      by_cases hs : (probe i).success = true
      · simp [retryLoop, hs]
      · simp only [Bool.not_eq_true] at hs
        have := ih (i + 1) (Nat.succ_pos rem')
        simp only [retryLoop, hs, Bool.false_eq_true, if_false]
        simpa using this

/-- C1.  Up to `retry_count` attempts (default 3), `retry_delay` seconds
(default 10) slept between consecutive attempts, short-circuit on the first
success, otherwise the last attempt's outcome is returned; the result is
never empty.  In particular with `retry_count = 3` and a probe failing on
attempts 1 and 2 and succeeding on attempt 3, the loop returns that success
after exactly 3 transport invocations. -/
theorem checkWithRetry_retry_policy (probe : Nat → CheckResult) (alerts : AlertsConfig) :
    (1 ≤ effRetryCount alerts ∧ (checkWithRetry probe alerts).1.isSome = true)
    ∧ (∀ k, k < effRetryCount alerts →
        (∀ j, j < k → (probe j).success = false) →
        ((probe k).success = true ∨ k = effRetryCount alerts - 1) →
        checkWithRetry probe alerts =
          (some (probe k), attemptTrace (effRetryDelayMs alerts) 0 (k + 1)))
    ∧ (∀ k, probeCount (attemptTrace (effRetryDelayMs alerts) 0 (k + 1)) = k + 1) := by
  refine ⟨⟨jsOr_pos _ _ (by norm_num), ?_⟩, ?_, ?_⟩
  · exact retryLoop_isSome probe _ _ 0 (jsOr_pos _ _ (by norm_num))
  · intro k hk hfail hlast
    have := retryLoop_spec probe (effRetryDelayMs alerts) (effRetryCount alerts) 0 k hk
      (fun j hj => by simpa using hfail j hj)
      (by simpa using hlast)
    simpa [checkWithRetry] using this
  · intro k
    induction k with
    | zero => simp [attemptTrace, probeCount]
    | succ n ihs =>
      -- probeCount of attemptTrace is independent of the start index
      have gen : ∀ m i, probeCount (attemptTrace (effRetryDelayMs alerts) i (m + 1)) = m + 1 := by
        intro m
        induction m with
        | zero => intro i; simp [attemptTrace, probeCount]
        | succ p ihp =>
          intro i
          simp only [attemptTrace, probeCount, List.countP_cons]
          have := ihp (i + 1)
          simp only [probeCount] at this
          simp [this]
      exact gen (n + 1) 0

/-- Witness for C1: the scenario from the spec, `retry_count = 3` with
failures on attempts 1 and 2 and success on attempt 3. -/
theorem checkWithRetry_retry_policy_witness :
    checkWithRetry
        (fun i => { name := "t", url := "u", success := decide (2 ≤ i),
                    statusCode := none, responseTime := none, error := none,
                    sslInfo := none, timestamp := 0 })
        {} =
      (some { name := "t", url := "u", success := true, statusCode := none,
              responseTime := none, error := none, sslInfo := none, timestamp := 0 },
       [RetryEvent.probe 0, RetryEvent.sleep 10000, RetryEvent.probe 1,
        RetryEvent.sleep 10000, RetryEvent.probe 2]) := by
  have h := (checkWithRetry_retry_policy
      (fun i => { name := "t", url := "u", success := decide (2 ≤ i),
                  statusCode := none, responseTime := none, error := none,
                  sslInfo := none, timestamp := 0 })
      {}).2.1 2 (by decide) (fun j hj => by interval_cases j <;> decide) (Or.inl (by decide))
  simpa [attemptTrace, effRetryDelayMs, jsOr] using h

/-! ## Probe classification (source: `checkUrl`, `src/src/checker.ts` lines 25-81) -/

/-- Raw HTTP response produced by `makeRequest` (redirect chasing is internal
to `makeRequest`, so one oracle call stands for the whole redirect chain). -/
structure HttpResponse where
  statusCode : Nat
  body : String
  sslInfo : Option SslInfo
deriving DecidableEq, Repr

/-- The merged settings `{ ...globalSettings, ...urlConfig }`; the two field
sets are disjoint, so the JS spread is a plain union. -/
structure MergedSettings where
  method : Option String := none
  timeout : Option Nat := none
  default_timeout : Option Nat := none
  user_agent : Option String := none
  follow_redirects : Option Bool := none
  max_redirects : Option Nat := none
  expected_status : Option (List Nat) := none
  expected_content : Option String := none
  response_time_threshold : Option Nat := none
  check_ssl : Option Bool := none
deriving DecidableEq, Repr

/-- `const settings = { ...globalSettings, ...urlConfig }` in `checkUrl`. -/
def mergeSettings (g : SettingsConfig) (u : UrlConfig) : MergedSettings :=
  { method := u.method
    timeout := u.timeout
    default_timeout := g.default_timeout
    user_agent := g.user_agent
    follow_redirects := g.follow_redirects
    max_redirects := g.max_redirects
    expected_status := u.expected_status
    expected_content := u.expected_content
    response_time_threshold := u.response_time_threshold
    check_ssl := u.check_ssl }

/-- JS `body.includes(pat)`. -/
def strContains (body pat : String) : Bool :=
  decide (pat.toList <:+: body.toList)

/-- `if (settings.expected_content) \x7b if (!response.body.includes(...)) \x7d`:
the outer JS truthiness test makes the empty string skip the check (which
`includes` would accept anyway). -/
def contentFails (s : MergedSettings) (body : String) : Bool :=
  match s.expected_content with
  | some c => if c = "" then false else !(strContains body c)
  | none => false

/-- `if (settings.response_time_threshold && result.responseTime > ...)`:
a threshold of `0` is falsy and disables the check. -/
def thresholdFails (s : MergedSettings) (elapsed : Nat) : Bool :=
  match s.response_time_threshold with
  | some th => if th = 0 then false else decide (th < elapsed)
  | none => false

/-- Source: `checkUrl(urlConfig, globalSettings)`.  The `makeRequest` call is
the oracle `transport` (`Except.error` models a rejected promise, i.e. a
connection error, timeout, redirect failure...); `elapsed` models the
`Date.now() - startTime` measurement and `ts` the creation timestamp. -/
def checkUrl (u : UrlConfig) (g : SettingsConfig)
    (transport : Except String HttpResponse) (elapsed : Nat) (ts : Nat) : CheckResult :=
  let settings := mergeSettings g u
  match transport with
  | Except.error msg =>
    { name := u.name, url := u.url, success := false, statusCode := none,
      responseTime := some elapsed, error := some msg, sslInfo := none, timestamp := ts }
  | Except.ok resp =>
    let base : CheckResult :=
      { name := u.name, url := u.url, success := false,
        statusCode := some resp.statusCode, responseTime := some elapsed,
        error := none, sslInfo := resp.sslInfo, timestamp := ts }
    let expectedStatus := settings.expected_status.getD [200]
    if resp.statusCode ∉ expectedStatus then
      { base with error := some ("Unexpected status code: " ++ toString resp.statusCode) }
    else if contentFails settings resp.body then
      { base with
        error := some ("Expected content not found: \"" ++
          settings.expected_content.getD "" ++ "\"") }
    else if thresholdFails settings elapsed then
      { base with
        error := some ("Response time " ++ toString elapsed ++ "ms exceeds threshold " ++
          toString (settings.response_time_threshold.getD 0) ++ "ms") }
    else
      { base with success := true }

theorem strContains_empty (body : String) : strContains body "" = true := by
  simp [strContains, List.nil_infix]

theorem contentFails_eq_false_iff (s : MergedSettings) (body : String) :
    contentFails s body = false ↔
      ∀ c, s.expected_content = some c → strContains body c = true := by
  cases h : s.expected_content with
  | none => simp [contentFails, h]
  | some c =>
    by_cases hc : c = ""
    · subst hc
      simp [contentFails, h, strContains_empty]
    · simp [contentFails, h, hc]

theorem thresholdFails_eq_false_iff (s : MergedSettings) (elapsed : Nat) :
    thresholdFails s elapsed = false ↔
      ∀ th, s.response_time_threshold = some th → th ≠ 0 → elapsed ≤ th := by
  cases h : s.response_time_threshold with
  | none => simp [thresholdFails, h]
  | some th =>
    by_cases h0 : th = 0
    · subst h0
      simp [thresholdFails, h]
    · simp [thresholdFails, h, h0, Nat.not_lt]

/-- C6.  `checkUrl` always returns a `CheckResult`: success exactly when the
status code is in the expected set (default `[200]`), the body contains the
configured substring, and the response time does not exceed a configured
(non-zero) threshold; every transport failure or classification failure
yields `success = false` with a non-null error description. -/
theorem checkUrl_total_classification (u : UrlConfig) (g : SettingsConfig)
    (transport : Except String HttpResponse) (elapsed ts : Nat) :
    ((checkUrl u g transport elapsed ts).success = true ↔
      ∃ resp, transport = Except.ok resp ∧
        resp.statusCode ∈ (mergeSettings g u).expected_status.getD [200] ∧
        (∀ c, (mergeSettings g u).expected_content = some c →
          strContains resp.body c = true) ∧
        (∀ th, (mergeSettings g u).response_time_threshold = some th → th ≠ 0 →
          elapsed ≤ th))
    ∧ ((checkUrl u g transport elapsed ts).success = false →
        (checkUrl u g transport elapsed ts).error.isSome = true)
    ∧ ((checkUrl u g transport elapsed ts).success = true →
        (checkUrl u g transport elapsed ts).error = none)
    ∧ (∀ msg, transport = Except.error msg →
        (checkUrl u g transport elapsed ts).success = false ∧
        (checkUrl u g transport elapsed ts).error = some msg ∧
        (checkUrl u g transport elapsed ts).responseTime = some elapsed) := by
  match transport with
  | Except.error msg =>
    refine ⟨?_, ?_, ?_, ?_⟩
    · simp [checkUrl]
    · intro _; rfl
    · simp [checkUrl]
    · intro m hm
      cases hm
      exact ⟨rfl, rfl, rfl⟩
  | Except.ok resp =>
    constructor
    · constructor
      · intro hs
        refine ⟨resp, rfl, ?_, ?_, ?_⟩
        · by_cases hin : resp.statusCode ∈ (mergeSettings g u).expected_status.getD [200]
          · exact hin
          · simp [checkUrl, hin] at hs
        · rw [← contentFails_eq_false_iff]
          by_cases hin : resp.statusCode ∈ (mergeSettings g u).expected_status.getD [200]
          · by_cases hcf : contentFails (mergeSettings g u) resp.body = true
            · simp [checkUrl, hin, hcf] at hs
            · simpa using hcf
          · simp [checkUrl, hin] at hs
        · rw [← thresholdFails_eq_false_iff]
          by_cases hin : resp.statusCode ∈ (mergeSettings g u).expected_status.getD [200]
          · by_cases hcf : contentFails (mergeSettings g u) resp.body = true
            · simp [checkUrl, hin, hcf] at hs
            · by_cases htf : thresholdFails (mergeSettings g u) elapsed = true
              · simp [checkUrl, hin, hcf, htf] at hs
              · simpa using htf
          · simp [checkUrl, hin] at hs
      · rintro ⟨resp2, heq, hin, hcontent, hth⟩
        have hcf : contentFails (mergeSettings g u) resp2.body = false :=
          (contentFails_eq_false_iff _ _).mpr hcontent
        have htf : thresholdFails (mergeSettings g u) elapsed = false :=
          (thresholdFails_eq_false_iff _ _).mpr hth
        rw [heq]
        simp [checkUrl, hin, hcf, htf]
    · constructor
      · intro hfail
        by_cases hin : resp.statusCode ∈ (mergeSettings g u).expected_status.getD [200]
        · by_cases hcf : contentFails (mergeSettings g u) resp.body = true
          · simp [checkUrl, hin, hcf]
          · by_cases htf : thresholdFails (mergeSettings g u) elapsed = true
            · simp [checkUrl, hin, hcf, htf]
            · simp only [Bool.not_eq_true] at hcf htf
              simp [checkUrl, hin, hcf, htf] at hfail
        · simp [checkUrl, hin]
      · constructor
        · intro hs
          by_cases hin : resp.statusCode ∈ (mergeSettings g u).expected_status.getD [200]
          · by_cases hcf : contentFails (mergeSettings g u) resp.body = true
            · simp [checkUrl, hin, hcf] at hs
            · by_cases htf : thresholdFails (mergeSettings g u) elapsed = true
              · simp [checkUrl, hin, hcf, htf] at hs
              · simp only [Bool.not_eq_true] at hcf htf
                simp [checkUrl, hin, hcf, htf]
          · simp [checkUrl, hin] at hs
        · intro msg hmsg
          cases hmsg

/-- Witness for C6: a 200 response against default settings succeeds, and a
transport error surfaces as a failed result carrying the error message. -/
theorem checkUrl_total_classification_witness :
    (checkUrl { name := "t", url := "u" } {} (Except.ok { statusCode := 200, body := "ok", sslInfo := none }) 5 0).success = true
    ∧ (checkUrl { name := "t", url := "u" } {} (Except.error "connect ECONNREFUSED") 5 0).success = false
    ∧ (checkUrl { name := "t", url := "u" } {} (Except.error "connect ECONNREFUSED") 5 0).error = some "connect ECONNREFUSED" := by
  refine ⟨?_, ?_, ?_⟩
  · refine (checkUrl_total_classification { name := "t", url := "u" } {}
      (Except.ok { statusCode := 200, body := "ok", sslInfo := none }) 5 0).1.mpr
      ⟨{ statusCode := 200, body := "ok", sslInfo := none }, rfl, ?_, ?_, ?_⟩
    · decide
    · intro c hc
      simp [mergeSettings] at hc
    · intro th hth
      simp [mergeSettings] at hth
  · exact ((checkUrl_total_classification { name := "t", url := "u" } {}
      (Except.error "connect ECONNREFUSED") 5 0).2.2.2 "connect ECONNREFUSED" rfl).1
  · exact ((checkUrl_total_classification { name := "t", url := "u" } {}
      (Except.error "connect ECONNREFUSED") 5 0).2.2.2 "connect ECONNREFUSED" rfl).2.1

/-! ## History store (source: the store module, `src/unnamed/part_002`
lines 396-533) -/

/-- `data.checks`: a JS object mapping target name to its ordered log;
modelled as an association list with keys in insertion order. -/
abbrev Store := List (String × List StoredCheck)

/-- `data.checks[name].push(...)` (the key is created on demand). -/
def appendCheck : Store → String → StoredCheck → Store
  | [], n, c => [(n, [c])]
  | (k, cs) :: rest, n, c =>
    if k = n then (k, cs ++ [c]) :: rest else (k, cs) :: appendCheck rest n c

/-- The retention cutoff `Date.now() - retentionDays * 24 * 60 * 60 * 1000`. -/
def cutoffMs (retentionDays now : Nat) : Int :=
  (now : Int) - ((retentionDays * dayMs : Nat) : Int)

/-- Source: `prune()` — keeps only checks with
`new Date(check.timestamp).getTime() > cutoff` and deletes a target's log
entirely once it becomes empty. -/
def prune (retentionDays now : Nat) (s : Store) : Store :=
  (s.map (fun p =>
      (p.1, p.2.filter (fun c => decide (cutoffMs retentionDays now < (c.timestamp : Int)))))).filter
    (fun p => !p.2.isEmpty)

/-- Source: `recordCheck(name, result)` — push, then `prune()`, then save. -/
def recordCheck (name : String) (c : StoredCheck) (retentionDays now : Nat) (s : Store) : Store :=
  prune retentionDays now (appendCheck s name c)

/-- C9.  `prune` keeps exactly the checks strictly newer than
`now - retention_days` (a check exactly at the cutoff is removed: the
comparison is strict), and a target whose log becomes empty is dropped
entirely. -/
theorem prune_retention (s : Store) (retentionDays now : Nat) :
    (∀ n cs, (n, cs) ∈ prune retentionDays now s →
      cs ≠ [] ∧ ∀ c ∈ cs, cutoffMs retentionDays now < (c.timestamp : Int))
    ∧ (∀ n cs c, (n, cs) ∈ s → c ∈ cs → cutoffMs retentionDays now < (c.timestamp : Int) →
        ∃ cs', (n, cs') ∈ prune retentionDays now s ∧ c ∈ cs')
    ∧ (∀ n, (∀ cs, (n, cs) ∈ s → ∀ c ∈ cs, (c.timestamp : Int) ≤ cutoffMs retentionDays now) →
        ∀ cs', (n, cs') ∉ prune retentionDays now s) := by
  refine ⟨?_, ?_, ?_⟩
  · intro n cs hmem
    simp only [prune, List.mem_filter, List.mem_map] at hmem
    obtain ⟨⟨⟨n0, cs0⟩, hmem0, heq⟩, hne⟩ := hmem
    obtain ⟨rfl, rfl⟩ : n0 = n ∧
        cs0.filter (fun c => decide (cutoffMs retentionDays now < (c.timestamp : Int))) = cs := by
      exact ⟨congrArg Prod.fst heq, congrArg Prod.snd heq⟩
    refine ⟨?_, ?_⟩
    · intro h0
      rw [h0] at hne
      simp at hne
    · intro c hc
      have := List.of_mem_filter hc
      simpa using this
  · intro n cs c hmem hc hcut
    refine ⟨cs.filter (fun c => decide (cutoffMs retentionDays now < (c.timestamp : Int))), ?_, ?_⟩
    · have hcmem : c ∈ cs.filter (fun c => decide (cutoffMs retentionDays now < (c.timestamp : Int))) :=
        List.mem_filter.mpr ⟨hc, by simpa using hcut⟩
      simp only [prune, List.mem_filter, List.mem_map]
      refine ⟨⟨(n, cs), hmem, rfl⟩, ?_⟩
      cases hfe : cs.filter (fun c => decide (cutoffMs retentionDays now < (c.timestamp : Int))) with
      | nil =>
        rw [hfe] at hcmem
        simp at hcmem
      | cons x xs => rfl
    · exact List.mem_filter.mpr ⟨hc, by simpa using hcut⟩
  · intro n hall cs' hmem
    simp only [prune, List.mem_filter, List.mem_map] at hmem
    obtain ⟨⟨⟨n0, cs0⟩, hmem0, heq⟩, hne⟩ := hmem
    obtain ⟨rfl, rfl⟩ : n0 = n ∧
        cs0.filter (fun c => decide (cutoffMs retentionDays now < (c.timestamp : Int))) = cs' := by
      exact ⟨congrArg Prod.fst heq, congrArg Prod.snd heq⟩
    cases hfe : cs0.filter (fun c => decide (cutoffMs retentionDays now < (c.timestamp : Int))) with
    | nil =>
      rw [hfe] at hne
      simp at hne
    | cons c rest =>
      have hcmem : c ∈ cs0.filter (fun c => decide (cutoffMs retentionDays now < (c.timestamp : Int))) := by
        rw [hfe]
        exact List.mem_cons_self c rest
      have hpc := List.of_mem_filter hcmem
      have hcc : c ∈ cs0 := List.mem_of_mem_filter hcmem
      have hle := hall cs0 hmem0 c hcc
      simp only [decide_eq_true_eq] at hpc
      exact absurd hpc (not_lt.mpr hle)

/-- Witness for C9: a check newer than the 5-day cutoff survives `prune`,
and a target whose only check sits exactly on the cutoff is dropped. -/
theorem prune_retention_witness :
    (∃ cs', ("a", cs') ∈ prune 5 1000000000
        [("a", [{ timestamp := 999999999, success := true, responseTime := some 5,
                  statusCode := some 200, error := none }])]
      ∧ ({ timestamp := 999999999, success := true, responseTime := some 5,
           statusCode := some 200, error := none } : StoredCheck) ∈ cs')
    ∧ ∀ cs', ("b", cs') ∉ prune 5 1000000000
        [("b", [{ timestamp := 568000000, success := true, responseTime := some 5,
                  statusCode := some 200, error := none }])] := by
  constructor
  · exact (prune_retention
      [("a", [{ timestamp := 999999999, success := true, responseTime := some 5,
                statusCode := some 200, error := none }])] 5 1000000000).2.1
      "a"
      [{ timestamp := 999999999, success := true, responseTime := some 5,
         statusCode := some 200, error := none }]
      { timestamp := 999999999, success := true, responseTime := some 5,
        statusCode := some 200, error := none }
      (by simp) (by simp) (by decide)
  · exact (prune_retention
      [("b", [{ timestamp := 568000000, success := true, responseTime := some 5,
                statusCode := some 200, error := none }])] 5 1000000000).2.2
      "b" (by intro cs hcs c hc; simp at hcs; rw [hcs] at hc; simp at hc; rw [hc]; decide)

/-! ## Incident ledger (source: `addIncident` and `resolveIncident`,
`src/unnamed/part_004` lines 50-74) -/

/-- Source: the `Incident` record of the status page; timestamps in
epoch ms. -/
structure Incident where
  service : String
  error : String
  timestamp : Nat
  resolved : Bool
  resolvedAt : Option Nat
deriving DecidableEq, Repr

/-- The hard-coded `const retentionDays = 90` inside `addIncident`. -/
def incidentRetentionMs : Nat := 90 * dayMs

/-- Source: `addIncident(service, error, timestamp)` — `unshift` a fresh
unresolved incident, then keep only incidents with
`new Date(i.timestamp).getTime() > Date.now() - 90 days`. -/
def addIncident (service err : String) (timestamp now : Nat)
    (incidents : List Incident) : List Incident :=
  ({ service := service, error := err, timestamp := timestamp,
     resolved := false, resolvedAt := none } :: incidents).filter
    (fun i => decide ((now : Int) - (incidentRetentionMs : Int) < (i.timestamp : Int)))

/-- Source: `resolveIncident(service)` — `find` the first (most recent,
since `addIncident` unshifts) unresolved incident for the service and mark
it resolved in place; `new Date().toISOString()` is the parameter `now`. -/
def resolveIncident (service : String) (now : Nat) : List Incident → List Incident
  | [] => []
  | i :: rest =>
    if i.service = service ∧ i.resolved = false then
      { i with resolved := true, resolvedAt := some now } :: rest
    else i :: resolveIncident service now rest

theorem resolveIncident_no_match (service : String) (now : Nat) :
    ∀ L : List Incident, (∀ i ∈ L, ¬(i.service = service ∧ i.resolved = false)) →
      resolveIncident service now L = L := by
  intro L
  induction L with
  | nil => intro _; rfl
  | cons i rest ih =>
    intro h
    have hi := h i (List.mem_cons_self i rest)
    simp only [resolveIncident, if_neg hi]
    rw [ih (fun j hj => h j (List.mem_cons_of_mem i hj))]

theorem resolveIncident_first_match (service : String) (now : Nat) :
    ∀ (L1 : List Incident) (i : Incident) (L2 : List Incident),
      (∀ j ∈ L1, ¬(j.service = service ∧ j.resolved = false)) →
      i.service = service → i.resolved = false →
      resolveIncident service now (L1 ++ i :: L2) =
        L1 ++ { i with resolved := true, resolvedAt := some now } :: L2 := by
  intro L1
  induction L1 with
  | nil =>
    intro i L2 _ hs hr
    simp only [List.nil_append, resolveIncident, if_pos (And.intro hs hr)]
  | cons j rest ih =>
    intro i L2 hL1 hs hr
    have hj := hL1 j (List.mem_cons_self j rest)
    simp only [List.cons_append, resolveIncident, if_neg hj]
    exact congrArg (fun t => j :: t)
      (ih i L2 (fun x hx => hL1 x (List.mem_cons_of_mem j hx)) hs hr)

theorem resolveIncident_length (service : String) (now : Nat) :
    ∀ L : List Incident, (resolveIncident service now L).length = L.length := by
  intro L
  induction L with
  | nil => rfl
  | cons i rest ih =>
    by_cases h : i.service = service ∧ i.resolved = false
    · simp [resolveIncident, if_pos h]
    · simp [resolveIncident, if_neg h, ih]

/-- C8.  `resolveIncident` marks the most recent (head-most, since
`addIncident` unshifts) unresolved incident for the service as resolved
with a resolution timestamp; with no unresolved incident for the service it
is the identity (total, hence never throws); the ledger keeps its length
and order, and `addIncident` keeps incidents most-recent-first. -/
theorem resolveIncident_spec (incidents : List Incident) (service : String) (now : Nat) :
    ((∀ i ∈ incidents, ¬(i.service = service ∧ i.resolved = false)) →
      resolveIncident service now incidents = incidents)
    ∧ (∀ (L1 : List Incident) (i : Incident) (L2 : List Incident),
        incidents = L1 ++ i :: L2 →
        (∀ j ∈ L1, ¬(j.service = service ∧ j.resolved = false)) →
        i.service = service → i.resolved = false →
        resolveIncident service now incidents =
          L1 ++ { i with resolved := true, resolvedAt := some now } :: L2)
    ∧ (resolveIncident service now incidents).length = incidents.length
    ∧ (∀ (s e : String) (ts tn : Nat) (L : List Incident),
        (addIncident s e ts tn L).Sublist
          ({ service := s, error := e, timestamp := ts,
             resolved := false, resolvedAt := none } :: L)) := by
  refine ⟨resolveIncident_no_match service now incidents, ?_, resolveIncident_length service now incidents, ?_⟩
  · intro L1 i L2 hdec hL1 hs hr
    rw [hdec]
    exact resolveIncident_first_match service now L1 i L2 hL1 hs hr
  · intro s e ts tn L
    exact List.filter_sublist _

/-- Witness for C8: resolving with no open incident is a no-op, and
resolving with an open incident behind a resolved one marks exactly the
first unresolved entry. -/
theorem resolveIncident_spec_witness :
    resolveIncident "a" 50
        [{ service := "a", error := "e", timestamp := 1, resolved := true, resolvedAt := some 2 }] =
      [{ service := "a", error := "e", timestamp := 1, resolved := true, resolvedAt := some 2 }]
    ∧ resolveIncident "a" 50
        [{ service := "b", error := "x", timestamp := 3, resolved := false, resolvedAt := none },
         { service := "a", error := "e", timestamp := 1, resolved := false, resolvedAt := none }] =
      [{ service := "b", error := "x", timestamp := 3, resolved := false, resolvedAt := none },
       { service := "a", error := "e", timestamp := 1, resolved := true, resolvedAt := some 50 }] := by
  constructor
  · exact (resolveIncident_spec
      [{ service := "a", error := "e", timestamp := 1, resolved := true, resolvedAt := some 2 }]
      "a" 50).1 (by intro i hi; simp at hi; rw [hi]; simp)
  · exact (resolveIncident_spec
      [{ service := "b", error := "x", timestamp := 3, resolved := false, resolvedAt := none },
       { service := "a", error := "e", timestamp := 1, resolved := false, resolvedAt := none }]
      "a" 50).2.1
      [{ service := "b", error := "x", timestamp := 3, resolved := false, resolvedAt := none }]
      { service := "a", error := "e", timestamp := 1, resolved := false, resolvedAt := none }
      [] rfl (by intro j hj; simp at hj; rw [hj]; simp) rfl rfl

/-- The incident-retention window the configuration requests.  This follows
the specification's words ("a configurable retention window"): the
`incident_retention_days` field exists in `StatusPageConfig` but is never
read by the incident code, which uses a hard-coded 90 days. -/
def configuredIncidentRetentionMs (c : StatusPageConfig) : Nat :=
  jsOr c.incident_retention_days 90 * dayMs

/-- Counterexample to C5 as stated: with `incident_retention_days = 1`
configured, an incident opened 2 days ago — i.e. older than the configured
retention window — still survives `addIncident`'s prune, because the code
prunes with a hard-coded 90-day window. -/
theorem addIncident_ignores_configured_retention :
    ({ service := "s", error := "e", timestamp := 7999827200000,
       resolved := false, resolvedAt := none } : Incident) ∈
      addIncident "t" "x" 8000000000000 8000000000000
        [{ service := "s", error := "e", timestamp := 7999827200000,
           resolved := false, resolvedAt := none }]
    ∧ (7999827200000 : Int) ≤ (8000000000000 : Int) -
        (configuredIncidentRetentionMs { incident_retention_days := some 1 } : Int) := by
  constructor
  · decide
  · decide

/-- C5 amended.  After every `addIncident`, incidents strictly older than a
fixed 90-day window (measured from `Date.now()`) are pruned regardless of
resolution status, every incident (resolved or open) inside the window is
kept, and the surviving fresh incident sits at the head of the ledger. -/
theorem addIncident_prunes_90_days (service err : String) (timestamp now : Nat)
    (L : List Incident) :
    (∀ i ∈ addIncident service err timestamp now L,
      (now : Int) - (incidentRetentionMs : Int) < (i.timestamp : Int))
    ∧ (∀ i ∈ L, (now : Int) - (incidentRetentionMs : Int) < (i.timestamp : Int) →
        i ∈ addIncident service err timestamp now L)
    ∧ ((now : Int) - (incidentRetentionMs : Int) < (timestamp : Int) →
        (addIncident service err timestamp now L).head? =
          some { service := service, error := err, timestamp := timestamp,
                 resolved := false, resolvedAt := none }) := by
  refine ⟨?_, ?_, ?_⟩
  · intro i hi
    have := List.of_mem_filter hi
    simpa using this
  · intro i hi hin
    exact List.mem_filter.mpr ⟨List.mem_cons_of_mem _ hi, by simpa using hin⟩
  · intro hfresh
    simp only [addIncident, List.filter_cons]
    rw [if_pos (by simpa using hfresh)]
    rfl

/-- Witness for C5 (amended): a 91-day-old resolved incident is pruned by
`addIncident` while a 1-day-old resolved incident survives, and the new
incident lands at the head. -/
theorem addIncident_prunes_90_days_witness :
    (∀ i ∈ addIncident "s" "e" 8000000000000 8000000000000
        [{ service := "old", error := "x", timestamp := 137600000,
           resolved := true, resolvedAt := some 140000000 }],
      (8000000000000 : Int) - (incidentRetentionMs : Int) < (i.timestamp : Int))
    ∧ ({ service := "r", error := "y", timestamp := 7999913600000,
         resolved := true, resolvedAt := some 7999913700000 } : Incident) ∈
        addIncident "s" "e" 8000000000000 8000000000000
          [{ service := "r", error := "y", timestamp := 7999913600000,
             resolved := true, resolvedAt := some 7999913700000 }]
    ∧ (addIncident "s" "e" 8000000000000 8000000000000 []).head? =
        some { service := "s", error := "e", timestamp := 8000000000000,
               resolved := false, resolvedAt := none } := by
  refine ⟨?_, ?_, ?_⟩
  · exact (addIncident_prunes_90_days "s" "e" 8000000000000 8000000000000
      [{ service := "old", error := "x", timestamp := 137600000,
         resolved := true, resolvedAt := some 140000000 }]).1
  · exact (addIncident_prunes_90_days "s" "e" 8000000000000 8000000000000
      [{ service := "r", error := "y", timestamp := 7999913600000,
         resolved := true, resolvedAt := some 7999913700000 }]).2.1 _ (by simp) (by decide)
  · exact (addIncident_prunes_90_days "s" "e" 8000000000000 8000000000000 []).2.2 (by decide)

/-! ## Hourly aggregation (source: `getHourlyAverages`,
`src/unnamed/part_002` lines 487-533) -/

/-- `Math.floor(ts / hourMs) * hourMs`: start of the epoch-aligned hour
containing `ts`. -/
def hourStartOf (ts : Nat) : Nat := ts / hourMs * hourMs

/-- `Math.round(num / den)` for nonnegative operands and `den > 0`:
`floor(num / den + 1 / 2)`. -/
def jsRound (num den : Nat) : Nat := (2 * num + den) / (2 * den)

/-- The mutable `{ total, count, upCount }` bucket record. -/
structure BucketAcc where
  total : Nat
  count : Nat
  upCount : Nat
deriving DecidableEq, Repr

/-- One row of the hourly view; `hour` is the bucket start in epoch ms (the
source renders it as an ISO string). -/
structure HourlyAverage where
  hour : Nat
  avgResponseTime : Option Nat
  uptime : Option Nat
  checkCount : Nat
deriving DecidableEq, Repr

/-- The bucket initialisation loop `for (let i = 0; i < hours; i++)`,
keeping the insertion order of the JS `Map`. -/
def initBuckets (now hours : Nat) : List (Nat × BucketAcc) :=
  (List.range hours).map
    (fun i => ((now - i * hourMs) / hourMs * hourMs, { total := 0, count := 0, upCount := 0 }))

/-- Folding one check into its bucket: add the response time when recorded,
bump `upCount` on success. -/
def bumpAcc (c : StoredCheck) (a : BucketAcc) : BucketAcc :=
  let a1 := match c.responseTime with
    | some rt => { a with total := a.total + rt, count := a.count + 1 }
    | none => a
  if c.success then { a1 with upCount := a1.upCount + 1 } else a1

/-- `if (buckets.has(hourStart)) buckets.set(hourStart, ...)`: update the
entry when the key is present, leave the map unchanged otherwise. -/
def updateBucket : List (Nat × BucketAcc) → Nat → StoredCheck → List (Nat × BucketAcc)
  | [], _, _ => []
  | (k0, a) :: rest, key, c =>
    if k0 = key then (k0, bumpAcc c a) :: rest else (k0, a) :: updateBucket rest key c

/-- The fill loop `for (const check of checks)`. -/
def fillBuckets (bs : List (Nat × BucketAcc)) (checks : List StoredCheck) :
    List (Nat × BucketAcc) :=
  checks.foldl (fun bs c => updateBucket bs (hourStartOf c.timestamp) c) bs

/-- `buckets.get(hourStart)`. -/
def lookupBucket (k : Nat) : List (Nat × BucketAcc) → Option BucketAcc
  | [] => none
  | (k0, a) :: rest => if k0 = k then some a else lookupBucket k rest

/-- Projection of one bucket into the result row: `null` average and uptime
when `count` (the number of response-time-bearing checks) is zero. -/
def mkHourly (k : Nat) (a : BucketAcc) : HourlyAverage :=
  { hour := k
    avgResponseTime := if 0 < a.count then some (jsRound a.total a.count) else none
    uptime := if 0 < a.count then some (jsRound (a.upCount * 100) a.count) else none
    checkCount := a.count }

/-- Source: `getHourlyAverages(name, hours)` with `Date.now() = now` and the
per-target log passed directly; keys are sorted ascending before the final
projection. -/
def getHourlyAverages (checks : List StoredCheck) (hours now : Nat) : List HourlyAverage :=
  if checks.isEmpty then []
  else
    let buckets := fillBuckets (initBuckets now hours) checks
    let sortedKeys := (buckets.map Prod.fst).mergeSort (fun a b => decide (a ≤ b))
    sortedKeys.map
      (fun k => mkHourly k ((lookupBucket k buckets).getD { total := 0, count := 0, upCount := 0 }))

/-- The checks of the log that fall in the 1-hour bucket starting at `k`
(declarative counterpart of the fill loop, used to state C4). -/
def bucketChecks (checks : List StoredCheck) (k : Nat) : List StoredCheck :=
  checks.filter (fun c => decide (hourStartOf c.timestamp = k))

/-- The recorded response times inside a bucket. -/
def bucketRts (checks : List StoredCheck) (k : Nat) : List Nat :=
  (bucketChecks checks k).filterMap (fun c => c.responseTime)

theorem bucketKey_formula (now hours i : Nat) (hi : i < hours) (hnow : hours * hourMs ≤ now) :
    (now - i * hourMs) / hourMs * hourMs = (now / hourMs - i) * hourMs := by
  simp only [hourMs] at *
  omega

theorem initBuckets_eq (now hours : Nat) (hnow : hours * hourMs ≤ now) :
    initBuckets now hours =
      ((List.range hours).map (fun i => (now / hourMs - i) * hourMs)).map
        (fun k => (k, ({ total := 0, count := 0, upCount := 0 } : BucketAcc))) := by
  rw [initBuckets, List.map_map]
  apply List.map_congr_left
  intro i hi
  rw [List.mem_range] at hi
  have h := bucketKey_formula now hours i hi hnow
  simp [Function.comp, h]

theorem initKeys_nodup (now hours : Nat) (hnow : hours * hourMs ≤ now) :
    ((List.range hours).map (fun i => (now / hourMs - i) * hourMs)).Nodup := by
  refine List.Nodup.map_on ?_ (List.nodup_range hours)
  intro x hx y hy hxy
  rw [List.mem_range] at hx hy
  simp only [hourMs] at hnow hxy
  omega

theorem lookupBucket_const_of_mem (ks : List Nat) (k : Nat) (hk : k ∈ ks) :
    lookupBucket k
        (ks.map (fun k0 => (k0, ({ total := 0, count := 0, upCount := 0 } : BucketAcc)))) =
      some { total := 0, count := 0, upCount := 0 } := by
  induction ks with
  | nil => cases hk
  | cons k0 rest ih =>
    simp only [List.map_cons, lookupBucket]
    by_cases h : k0 = k
    · rw [if_pos h]
    · rw [if_neg h]
      refine ih ?_
      rcases List.mem_cons.mp hk with h1 | h1
      · exact absurd h1.symm h
      · exact h1

theorem updateBucket_keys (bs : List (Nat × BucketAcc)) (key : Nat) (c : StoredCheck) :
    (updateBucket bs key c).map Prod.fst = bs.map Prod.fst := by
  induction bs with
  | nil => rfl
  | cons p rest ih =>
    obtain ⟨k0, a⟩ := p
    by_cases h : k0 = key
    · simp [updateBucket, h]
    · simp [updateBucket, h, ih]

theorem fillBuckets_cons (bs : List (Nat × BucketAcc)) (c : StoredCheck) (cs : List StoredCheck) :
    fillBuckets bs (c :: cs) = fillBuckets (updateBucket bs (hourStartOf c.timestamp) c) cs := rfl

theorem fillBuckets_keys (checks : List StoredCheck) :
    ∀ bs : List (Nat × BucketAcc), (fillBuckets bs checks).map Prod.fst = bs.map Prod.fst := by
  induction checks with
  | nil => intro bs; rfl
  | cons c cs ih =>
    intro bs
    rw [fillBuckets_cons, ih, updateBucket_keys]

theorem lookupBucket_update (bs : List (Nat × BucketAcc)) (key k : Nat) (c : StoredCheck) :
    lookupBucket k (updateBucket bs key c) =
      if key = k then (lookupBucket k bs).map (bumpAcc c) else lookupBucket k bs := by
  induction bs with
  | nil =>
    simp only [updateBucket, lookupBucket, Option.map_none']
    rw [ite_self]
  | cons p rest ih =>
    obtain ⟨k0, a⟩ := p
    by_cases h1 : k0 = key
    · subst h1
      rw [show updateBucket ((k0, a) :: rest) k0 c = (k0, bumpAcc c a) :: rest from by
        simp [updateBucket]]
      by_cases h2 : k0 = k
      · subst h2
        simp [lookupBucket]
      · simp only [lookupBucket, if_neg h2]
    · rw [show updateBucket ((k0, a) :: rest) key c = (k0, a) :: updateBucket rest key c from by
        simp [updateBucket, h1]]
      by_cases h2 : k0 = k
      · subst h2
        simp only [lookupBucket, if_pos rfl]
        rw [if_neg (fun hh : key = k0 => h1 hh.symm)]
        simp [lookupBucket]
      · simp only [lookupBucket, if_neg h2, ih]

theorem lookupBucket_fill (checks : List StoredCheck) :
    ∀ (bs : List (Nat × BucketAcc)) (k : Nat),
      lookupBucket k (fillBuckets bs checks) =
        (lookupBucket k bs).map
          (fun a => (checks.filter (fun c => decide (hourStartOf c.timestamp = k))).foldl
            (fun acc c => bumpAcc c acc) a) := by
  induction checks with
  | nil =>
    intro bs k
    have h0 : fillBuckets bs [] = bs := rfl
    rw [h0]
    cases lookupBucket k bs <;> rfl
  | cons c cs ih =>
    intro bs k
    rw [fillBuckets_cons, ih, lookupBucket_update]
    by_cases h : hourStartOf c.timestamp = k
    · rw [if_pos h, Option.map_map]
      cases lookupBucket k bs <;> simp [List.filter_cons, h, Function.comp]
    · rw [if_neg h]
      cases lookupBucket k bs <;> simp [List.filter_cons, h]

theorem foldl_bumpAcc (cs : List StoredCheck) :
    ∀ a : BucketAcc,
      cs.foldl (fun acc c => bumpAcc c acc) a =
        { total := a.total + (cs.filterMap (fun c => c.responseTime)).sum,
          count := a.count + (cs.filterMap (fun c => c.responseTime)).length,
          upCount := a.upCount + cs.countP (fun c => c.success) } := by
  induction cs with
  | nil => intro a; simp
  | cons c rest ih =>
    intro a
    rw [List.foldl_cons, ih]
    cases hrt : c.responseTime with
    | none =>
      cases hs : c.success with
      | false =>
        simp [bumpAcc, hrt, hs, List.filterMap_cons, List.countP_cons, BucketAcc.mk.injEq]
      | true =>
        simp [bumpAcc, hrt, hs, List.filterMap_cons, List.countP_cons, BucketAcc.mk.injEq]
        try omega
    | some rt =>
      cases hs : c.success with
      | false =>
        simp [bumpAcc, hrt, hs, List.filterMap_cons, List.countP_cons, BucketAcc.mk.injEq]
        try omega
      | true =>
        simp [bumpAcc, hrt, hs, List.filterMap_cons, List.countP_cons, BucketAcc.mk.injEq]
        try omega

theorem decide_le_trans (a b c : Nat) (hab : decide (a ≤ b) = true)
    (hbc : decide (b ≤ c) = true) : decide (a ≤ c) = true := by
  simp only [decide_eq_true_eq] at *
  omega

theorem decide_le_total (a b : Nat) : (decide (a ≤ b) || decide (b ≤ a)) = true := by
  rcases Nat.le_total a b with h | h <;> simp [h]

/-- Counterexample to C4 as stated: a target with no stored checks yields an
empty list — not one bucket for the requested hour carrying null fields. -/
theorem getHourlyAverages_empty_no_buckets :
    (getHourlyAverages [] 1 36000000000).length ≠ 1 := by decide

/-- C4 amended.  For a target with at least one stored check,
`getHourlyAverages` produces exactly one bucket per requested hour (epoch-
aligned, covering the hour containing `now` and the `hours - 1` hours before
it, sorted ascending, empty hours included); each bucket reports the rounded
mean of the response times recorded in that hour and a success percentage
whose denominator is the number of response-time-bearing checks of that
hour, both `null` (not zero) when that hour has no response-time-bearing
check. -/
theorem getHourlyAverages_spec (checks : List StoredCheck) (hours now : Nat)
    (hne : checks ≠ []) (hnow : hours * hourMs ≤ now) :
    (getHourlyAverages checks hours now).length = hours
    ∧ List.Pairwise (fun a b => a.hour < b.hour) (getHourlyAverages checks hours now)
    ∧ (∀ i, i < hours →
        ∃ b ∈ getHourlyAverages checks hours now, b.hour = (now / hourMs - i) * hourMs)
    ∧ (∀ b ∈ getHourlyAverages checks hours now,
        b.checkCount = (bucketRts checks b.hour).length
        ∧ b.avgResponseTime =
            (if 0 < (bucketRts checks b.hour).length
              then some (jsRound (bucketRts checks b.hour).sum (bucketRts checks b.hour).length)
              else none)
        ∧ b.uptime =
            (if 0 < (bucketRts checks b.hour).length
              then some (jsRound ((bucketChecks checks b.hour).countP (fun c => c.success) * 100)
                (bucketRts checks b.hour).length)
              else none)) := by
  have hemp : checks.isEmpty = false := by
    cases checks with
    | nil => exact absurd rfl hne
    | cons a l => rfl
  have hout : getHourlyAverages checks hours now =
      (((fillBuckets (initBuckets now hours) checks).map Prod.fst).mergeSort
          (fun a b => decide (a ≤ b))).map
        (fun k => mkHourly k
          ((lookupBucket k (fillBuckets (initBuckets now hours) checks)).getD
            { total := 0, count := 0, upCount := 0 })) := by
    simp only [getHourlyAverages, hemp, Bool.false_eq_true, if_false]
  have hkeys : (fillBuckets (initBuckets now hours) checks).map Prod.fst =
      (List.range hours).map (fun i => (now / hourMs - i) * hourMs) := by
    rw [fillBuckets_keys, initBuckets_eq now hours hnow, List.map_map]
    simp [Function.comp]
  have hperm : (((fillBuckets (initBuckets now hours) checks).map Prod.fst).mergeSort
      (fun a b => decide (a ≤ b))).Perm
      ((List.range hours).map (fun i => (now / hourMs - i) * hourMs)) := by
    rw [← hkeys]
    exact List.mergeSort_perm _ _
  have hvalue : ∀ k, k ∈ ((fillBuckets (initBuckets now hours) checks).map Prod.fst).mergeSort
      (fun a b => decide (a ≤ b)) →
      lookupBucket k (fillBuckets (initBuckets now hours) checks) =
        some { total := (bucketRts checks k).sum,
               count := (bucketRts checks k).length,
               upCount := (bucketChecks checks k).countP (fun c => c.success) } := by
    intro k hk
    have hkmem : k ∈ (List.range hours).map (fun i => (now / hourMs - i) * hourMs) :=
      (hperm.mem_iff).mp hk
    rw [lookupBucket_fill, initBuckets_eq now hours hnow,
      lookupBucket_const_of_mem _ _ hkmem]
    rw [Option.map_some']
    rw [foldl_bumpAcc]
    simp [bucketRts, bucketChecks]
  refine ⟨?_, ?_, ?_, ?_⟩
  · rw [hout, List.length_map, hperm.length_eq, List.length_map, List.length_range]
  · rw [hout]
    have hsorted : List.Pairwise (fun a b : Nat => a ≤ b)
        (((fillBuckets (initBuckets now hours) checks).map Prod.fst).mergeSort
          (fun a b => decide (a ≤ b))) := by
      have h := @List.sorted_mergeSort Nat (fun a b => decide (a ≤ b))
        decide_le_trans decide_le_total
        ((fillBuckets (initBuckets now hours) checks).map Prod.fst)
      exact h.imp (fun hab => by simpa using hab)
    have hnodup : (((fillBuckets (initBuckets now hours) checks).map Prod.fst).mergeSort
        (fun a b => decide (a ≤ b))).Nodup :=
      (hperm.nodup_iff).mpr (initKeys_nodup now hours hnow)
    have hlt := List.Sorted.lt_of_le hsorted hnodup
    exact List.pairwise_map.mpr (hlt.imp (fun hab => hab))
  · intro i hi
    have hkmem : (now / hourMs - i) * hourMs ∈
        (List.range hours).map (fun j => (now / hourMs - j) * hourMs) :=
      List.mem_map.mpr ⟨i, List.mem_range.mpr hi, rfl⟩
    have hks := (hperm.mem_iff).mpr hkmem
    refine ⟨mkHourly ((now / hourMs - i) * hourMs)
      ((lookupBucket ((now / hourMs - i) * hourMs)
        (fillBuckets (initBuckets now hours) checks)).getD
        { total := 0, count := 0, upCount := 0 }), ?_, rfl⟩
    rw [hout]
    exact List.mem_map_of_mem _ hks
  · intro b hb
    rw [hout] at hb
    obtain ⟨k, hk, rfl⟩ := List.mem_map.mp hb
    rw [hvalue k hk]
    simp [mkHourly]

/-- Witness for C4 (amended): one successful 5 ms check in the hour
containing `now`, two requested hours. -/
theorem getHourlyAverages_spec_witness :
    (getHourlyAverages
      [{ timestamp := 2 * hourMs + 50, success := true, responseTime := some 5,
         statusCode := some 200, error := none }] 2 (2 * hourMs + 100)).length = 2 := by
  exact (getHourlyAverages_spec
    [{ timestamp := 2 * hourMs + 50, success := true, responseTime := some 5,
       statusCode := some 200, error := none }] 2 (2 * hourMs + 100)
    (by simp) (by norm_num [hourMs])).1

/-! ## Monitoring state machine (source: `runCheck`, `src/index.ts`
lines 64-123) -/

inductive Status where
  | up
  | down
deriving DecidableEq, Repr

/-- The slice of the scheduler's mutable state owned by one target:
`state.urlStates.get(name)?.status`, `state.lastAlert.get(name)` and
`state.lastAlert.get("ssl-" + name)` (epoch ms). -/
structure MonitorState where
  prevStatus : Option Status
  lastAlert : Option Nat
  lastSslAlert : Option Nat
deriving DecidableEq, Repr

/-- The target before its first check: absent from every map. -/
def MonitorState.init : MonitorState :=
  { prevStatus := none, lastAlert := none, lastSslAlert := none }

/-- Which notifications one cycle fired. -/
structure CycleEvents where
  notifiedDown : Bool
  notifiedUp : Bool
  notifiedSsl : Bool
deriving DecidableEq, Repr

/-- Result of one `runCheck` cycle after the probe resolved. -/
structure CycleOut where
  state : MonitorState
  ledger : List Incident
  store : Store
  events : CycleEvents
deriving DecidableEq, Repr

/-- `SSL_WARNING_DAYS = 14`. -/
def sslWarningDays : Int := 14

/-- `const sslCooldown = 24 * 60 * 60 * 1000`. -/
def sslCooldownMs : Nat := 24 * 60 * 60 * 1000

/-- `(alerts.cooldown_period || 300) * 1000`. -/
def effCooldownMs (alerts : AlertsConfig) : Nat :=
  jsOr alerts.cooldown_period 300 * 1000

/-- `(urlConfig.delay || 60) * 1000` (source: `scheduleChecks`, line 152). -/
def scheduleDelayMs (u : UrlConfig) : Nat :=
  jsOr u.delay 60 * 1000

/-- The up/down transition block of `runCheck` (lines 75-106): updates the
target's url-state and, on an edge, fires the matching notification and
incident operation.  `Date.now()` during the cycle is `now`. -/
def statusStep (alerts : AlertsConfig) (st : MonitorState) (ledger : List Incident)
    (res : CheckResult) (now : Nat) : MonitorState × List Incident × CycleEvents :=
  let st1 : MonitorState :=
    { prevStatus := some (if res.success then Status.up else Status.down)
      lastAlert := st.lastAlert
      lastSslAlert := st.lastSslAlert }
  if res.success = false ∧ st.prevStatus ≠ some Status.down then
    if (now : Int) - ((st.lastAlert.getD 0 : Nat) : Int) > ((effCooldownMs alerts : Nat) : Int) then
      ({ st1 with lastAlert := some now },
       addIncident res.name (res.error.getD "") res.timestamp now ledger,
       { notifiedDown := true, notifiedUp := false, notifiedSsl := false })
    else
      (st1, ledger, { notifiedDown := false, notifiedUp := false, notifiedSsl := false })
  else if res.success = true ∧ st.prevStatus = some Status.down then
    if alerts.alert_on_recovery ≠ some false then
      (st1, resolveIncident res.name now ledger,
       { notifiedDown := false, notifiedUp := true, notifiedSsl := false })
    else
      (st1, ledger, { notifiedDown := false, notifiedUp := false, notifiedSsl := false })
  else
    (st1, ledger, { notifiedDown := false, notifiedUp := false, notifiedSsl := false })

/-- The SSL-expiry block of `runCheck` (lines 108-120), applied to the state
produced by the transition block (whose `lastSslAlert` entry it never
touches). -/
def sslStep (st : MonitorState) (ev : CycleEvents) (res : CheckResult) (now : Nat) :
    MonitorState × CycleEvents :=
  match res.sslInfo with
  | some info =>
    if info.daysRemaining ≤ sslWarningDays then
      if (now : Int) - ((st.lastSslAlert.getD 0 : Nat) : Int) > ((sslCooldownMs : Nat) : Int) then
        ({ st with lastSslAlert := some now }, { ev with notifiedSsl := true })
      else (st, ev)
    else (st, ev)
  | none => (st, ev)

/-- Source: `runCheck(urlConfig)` once `checkWithRetry` has resolved to
`res`: record the outcome in the store (line 73), run the transition block,
then the SSL-expiry block.  `retentionDays` is the store's retention
setting. -/
def runCheck (alerts : AlertsConfig) (retentionDays : Nat) (st : MonitorState)
    (ledger : List Incident) (store : Store) (res : CheckResult) (now : Nat) : CycleOut :=
  let store1 := recordCheck res.name (toStored res) retentionDays now store
  let s1 := statusStep alerts st ledger res now
  let s2 := sslStep s1.1 s1.2.2 res now
  { state := s2.1, ledger := s1.2.1, store := store1, events := s2.2 }

/-- A sequence of completed check cycles for one target: each entry is the
probe outcome with that cycle's `Date.now()`; yields each cycle's events
with its time. -/
def runTrace (alerts : AlertsConfig) (retentionDays : Nat) :
    MonitorState → List Incident → Store → List (CheckResult × Nat) →
      List (CycleEvents × Nat)
  | _, _, _, [] => []
  | st, ledger, store, (res, now) :: rest =>
    let out := runCheck alerts retentionDays st ledger store res now
    (out.events, now) :: runTrace alerts retentionDays out.state out.ledger out.store rest

/-- The times at which a trace fired the notifications selected by `g`. -/
def stampTimes (g : CycleEvents → Bool) (tr : List (CycleEvents × Nat)) : List Nat :=
  (tr.filter (fun p => g p.1)).map Prod.snd

theorem statusStep_lastSslAlert (alerts : AlertsConfig) (st : MonitorState)
    (ledger : List Incident) (res : CheckResult) (now : Nat) :
    (statusStep alerts st ledger res now).1.lastSslAlert = st.lastSslAlert := by
  simp only [statusStep]
  split_ifs <;> rfl

theorem statusStep_notifiedSsl (alerts : AlertsConfig) (st : MonitorState)
    (ledger : List Incident) (res : CheckResult) (now : Nat) :
    (statusStep alerts st ledger res now).2.2.notifiedSsl = false := by
  simp only [statusStep]
  split_ifs <;> rfl

theorem statusStep_fire_case (alerts : AlertsConfig) (st : MonitorState)
    (ledger : List Incident) (res : CheckResult) (now : Nat)
    (h1 : res.success = false ∧ st.prevStatus ≠ some Status.down)
    (h2 : (now : Int) - ((st.lastAlert.getD 0 : Nat) : Int) >
      ((effCooldownMs alerts : Nat) : Int)) :
    statusStep alerts st ledger res now =
      ({ prevStatus := some (if res.success then Status.up else Status.down),
         lastAlert := some now, lastSslAlert := st.lastSslAlert },
       addIncident res.name (res.error.getD "") res.timestamp now ledger,
       { notifiedDown := true, notifiedUp := false, notifiedSsl := false }) := by
  simp only [statusStep]
  rw [if_pos h1, if_pos h2]

theorem statusStep_suppressed_case (alerts : AlertsConfig) (st : MonitorState)
    (ledger : List Incident) (res : CheckResult) (now : Nat)
    (h1 : res.success = false ∧ st.prevStatus ≠ some Status.down)
    (h2 : ¬((now : Int) - ((st.lastAlert.getD 0 : Nat) : Int) >
      ((effCooldownMs alerts : Nat) : Int))) :
    statusStep alerts st ledger res now =
      ({ prevStatus := some (if res.success then Status.up else Status.down),
         lastAlert := st.lastAlert, lastSslAlert := st.lastSslAlert },
       ledger,
       { notifiedDown := false, notifiedUp := false, notifiedSsl := false }) := by
  simp only [statusStep]
  rw [if_pos h1, if_neg h2]

theorem statusStep_notifiedDown_of_not_downEdge (alerts : AlertsConfig) (st : MonitorState)
    (ledger : List Incident) (res : CheckResult) (now : Nat)
    (h1 : ¬(res.success = false ∧ st.prevStatus ≠ some Status.down)) :
    (statusStep alerts st ledger res now).2.2.notifiedDown = false
    ∧ (statusStep alerts st ledger res now).1.lastAlert = st.lastAlert := by
  simp only [statusStep]
  rw [if_neg h1]
  by_cases h3 : res.success = true ∧ st.prevStatus = some Status.down
  · rw [if_pos h3]
    by_cases h4 : alerts.alert_on_recovery ≠ some false
    · rw [if_pos h4]
      exact ⟨rfl, rfl⟩
    · rw [if_neg h4]
      exact ⟨rfl, rfl⟩
  · rw [if_neg h3]
    exact ⟨rfl, rfl⟩

theorem statusStep_fire_iff (alerts : AlertsConfig) (st : MonitorState)
    (ledger : List Incident) (res : CheckResult) (now : Nat) :
    (statusStep alerts st ledger res now).2.2.notifiedDown = true ↔
      (res.success = false ∧ st.prevStatus ≠ some Status.down ∧
        st.lastAlert.getD 0 + effCooldownMs alerts < now) := by
  by_cases h1 : res.success = false ∧ st.prevStatus ≠ some Status.down
  · by_cases h2 : (now : Int) - ((st.lastAlert.getD 0 : Nat) : Int) >
        ((effCooldownMs alerts : Nat) : Int)
    · rw [statusStep_fire_case alerts st ledger res now h1 h2]
      exact ⟨fun _ => ⟨h1.1, h1.2, by omega⟩, fun _ => rfl⟩
    · rw [statusStep_suppressed_case alerts st ledger res now h1 h2]
      constructor
      · intro h
        simp at h
      · rintro ⟨-, -, hg⟩
        exact absurd (by omega : (now : Int) - ((st.lastAlert.getD 0 : Nat) : Int) >
          ((effCooldownMs alerts : Nat) : Int)) h2
  · rw [(statusStep_notifiedDown_of_not_downEdge alerts st ledger res now h1).1]
    constructor
    · intro h
      simp at h
    · rintro ⟨ha, hb, -⟩
      exact absurd ⟨ha, hb⟩ h1

theorem statusStep_fire_lastAlert (alerts : AlertsConfig) (st : MonitorState)
    (ledger : List Incident) (res : CheckResult) (now : Nat)
    (h : (statusStep alerts st ledger res now).2.2.notifiedDown = true) :
    (statusStep alerts st ledger res now).1.lastAlert = some now := by
  by_cases h1 : res.success = false ∧ st.prevStatus ≠ some Status.down
  · by_cases h2 : (now : Int) - ((st.lastAlert.getD 0 : Nat) : Int) >
        ((effCooldownMs alerts : Nat) : Int)
    · rw [statusStep_fire_case alerts st ledger res now h1 h2]
    · rw [statusStep_suppressed_case alerts st ledger res now h1 h2] at h
      simp at h
  · rw [(statusStep_notifiedDown_of_not_downEdge alerts st ledger res now h1).1] at h
    simp at h

theorem statusStep_silent_lastAlert (alerts : AlertsConfig) (st : MonitorState)
    (ledger : List Incident) (res : CheckResult) (now : Nat)
    (h : (statusStep alerts st ledger res now).2.2.notifiedDown = false) :
    (statusStep alerts st ledger res now).1.lastAlert = st.lastAlert := by
  by_cases h1 : res.success = false ∧ st.prevStatus ≠ some Status.down
  · by_cases h2 : (now : Int) - ((st.lastAlert.getD 0 : Nat) : Int) >
        ((effCooldownMs alerts : Nat) : Int)
    · rw [statusStep_fire_case alerts st ledger res now h1 h2] at h
      simp at h
    · rw [statusStep_suppressed_case alerts st ledger res now h1 h2]
  · exact (statusStep_notifiedDown_of_not_downEdge alerts st ledger res now h1).2

theorem statusStep_prevStatus (alerts : AlertsConfig) (st : MonitorState)
    (ledger : List Incident) (res : CheckResult) (now : Nat) :
    (statusStep alerts st ledger res now).1.prevStatus =
      some (if res.success then Status.up else Status.down) := by
  simp only [statusStep]
  split_ifs <;> rfl

theorem statusStep_recovery (alerts : AlertsConfig) (st : MonitorState)
    (ledger : List Incident) (res : CheckResult) (now : Nat)
    (hs : res.success = true) (hprev : st.prevStatus = some Status.down)
    (hrec : alerts.alert_on_recovery ≠ some false) :
    statusStep alerts st ledger res now =
      ({ prevStatus := some Status.up, lastAlert := st.lastAlert,
         lastSslAlert := st.lastSslAlert },
       resolveIncident res.name now ledger,
       { notifiedDown := false, notifiedUp := true, notifiedSsl := false }) := by
  simp only [statusStep]
  rw [if_neg (by simp [hs]), if_pos ⟨hs, hprev⟩, if_pos hrec]
  simp [hs]

theorem sslStep_skip_case (st : MonitorState) (ev : CycleEvents) (res : CheckResult)
    (now : Nat) (hssl : res.sslInfo = none) :
    sslStep st ev res now = (st, ev) := by
  simp only [sslStep, hssl]

theorem sslStep_fresh_case (st : MonitorState) (ev : CycleEvents) (res : CheckResult)
    (now : Nat) (info : SslInfo) (hssl : res.sslInfo = some info)
    (hd : ¬info.daysRemaining ≤ sslWarningDays) :
    sslStep st ev res now = (st, ev) := by
  simp only [sslStep, hssl]
  rw [if_neg hd]

theorem sslStep_cooled_case (st : MonitorState) (ev : CycleEvents) (res : CheckResult)
    (now : Nat) (info : SslInfo) (hssl : res.sslInfo = some info)
    (hd : info.daysRemaining ≤ sslWarningDays)
    (hg : ¬((now : Int) - ((st.lastSslAlert.getD 0 : Nat) : Int) >
      ((sslCooldownMs : Nat) : Int))) :
    sslStep st ev res now = (st, ev) := by
  simp only [sslStep, hssl]
  rw [if_pos hd, if_neg hg]

theorem sslStep_fire_case (st : MonitorState) (ev : CycleEvents) (res : CheckResult)
    (now : Nat) (info : SslInfo) (hssl : res.sslInfo = some info)
    (hd : info.daysRemaining ≤ sslWarningDays)
    (hg : (now : Int) - ((st.lastSslAlert.getD 0 : Nat) : Int) >
      ((sslCooldownMs : Nat) : Int)) :
    sslStep st ev res now =
      ({ st with lastSslAlert := some now }, { ev with notifiedSsl := true }) := by
  simp only [sslStep, hssl]
  rw [if_pos hd, if_pos hg]

theorem sslStep_preserves (st : MonitorState) (ev : CycleEvents) (res : CheckResult)
    (now : Nat) :
    (sslStep st ev res now).1.lastAlert = st.lastAlert
    ∧ (sslStep st ev res now).1.prevStatus = st.prevStatus
    ∧ (sslStep st ev res now).2.notifiedDown = ev.notifiedDown
    ∧ (sslStep st ev res now).2.notifiedUp = ev.notifiedUp := by
  cases hssl : res.sslInfo with
  | none =>
    rw [sslStep_skip_case st ev res now hssl]
    exact ⟨rfl, rfl, rfl, rfl⟩
  | some info =>
    by_cases hd : info.daysRemaining ≤ sslWarningDays
    · by_cases hg : (now : Int) - ((st.lastSslAlert.getD 0 : Nat) : Int) >
          ((sslCooldownMs : Nat) : Int)
      · rw [sslStep_fire_case st ev res now info hssl hd hg]
        exact ⟨rfl, rfl, rfl, rfl⟩
      · rw [sslStep_cooled_case st ev res now info hssl hd hg]
        exact ⟨rfl, rfl, rfl, rfl⟩
    · rw [sslStep_fresh_case st ev res now info hssl hd]
      exact ⟨rfl, rfl, rfl, rfl⟩

theorem sslStep_fire_iff (st : MonitorState) (ev : CycleEvents) (res : CheckResult)
    (now : Nat) (hev : ev.notifiedSsl = false) :
    (sslStep st ev res now).2.notifiedSsl = true ↔
      ((∃ info, res.sslInfo = some info ∧ info.daysRemaining ≤ sslWarningDays) ∧
        st.lastSslAlert.getD 0 + sslCooldownMs < now) := by
  cases hssl : res.sslInfo with
  | none =>
    rw [sslStep_skip_case st ev res now hssl]
    constructor
    · intro h
      simp [hev] at h
    · rintro ⟨⟨info, heq, -⟩, -⟩
      exact Option.noConfusion heq
  | some info =>
    by_cases hd : info.daysRemaining ≤ sslWarningDays
    · by_cases hg : (now : Int) - ((st.lastSslAlert.getD 0 : Nat) : Int) >
          ((sslCooldownMs : Nat) : Int)
      · rw [sslStep_fire_case st ev res now info hssl hd hg]
        exact ⟨fun _ => ⟨⟨info, rfl, hd⟩, by omega⟩, fun _ => rfl⟩
      · rw [sslStep_cooled_case st ev res now info hssl hd hg]
        constructor
        · intro h
          simp [hev] at h
        · rintro ⟨-, hlt⟩
          exact absurd (by omega : (now : Int) - ((st.lastSslAlert.getD 0 : Nat) : Int) >
            ((sslCooldownMs : Nat) : Int)) hg
    · rw [sslStep_fresh_case st ev res now info hssl hd]
      constructor
      · intro h
        simp [hev] at h
      · rintro ⟨⟨info2, heq, hd2⟩, -⟩
        have heq2 : info2 = info := by injection heq.symm
        rw [heq2] at hd2
        exact absurd hd2 hd

theorem sslStep_fire_state (st : MonitorState) (ev : CycleEvents) (res : CheckResult)
    (now : Nat) (hev : ev.notifiedSsl = false)
    (h : (sslStep st ev res now).2.notifiedSsl = true) :
    (sslStep st ev res now).1.lastSslAlert = some now := by
  cases hssl : res.sslInfo with
  | none =>
    rw [sslStep_skip_case st ev res now hssl] at h
    simp [hev] at h
  | some info =>
    by_cases hd : info.daysRemaining ≤ sslWarningDays
    · by_cases hg : (now : Int) - ((st.lastSslAlert.getD 0 : Nat) : Int) >
          ((sslCooldownMs : Nat) : Int)
      · rw [sslStep_fire_case st ev res now info hssl hd hg]
      · rw [sslStep_cooled_case st ev res now info hssl hd hg] at h
        simp [hev] at h
    · rw [sslStep_fresh_case st ev res now info hssl hd] at h
      simp [hev] at h

theorem sslStep_silent_state (st : MonitorState) (ev : CycleEvents) (res : CheckResult)
    (now : Nat) (h : (sslStep st ev res now).2.notifiedSsl = false) :
    (sslStep st ev res now).1.lastSslAlert = st.lastSslAlert := by
  cases hssl : res.sslInfo with
  | none => rw [sslStep_skip_case st ev res now hssl]
  | some info =>
    by_cases hd : info.daysRemaining ≤ sslWarningDays
    · by_cases hg : (now : Int) - ((st.lastSslAlert.getD 0 : Nat) : Int) >
          ((sslCooldownMs : Nat) : Int)
      · rw [sslStep_fire_case st ev res now info hssl hd hg] at h
        simp at h
      · rw [sslStep_cooled_case st ev res now info hssl hd hg]
    · rw [sslStep_fresh_case st ev res now info hssl hd]

theorem runCheck_events_eq (alerts : AlertsConfig) (rd : Nat) (st : MonitorState)
    (ledger : List Incident) (store : Store) (res : CheckResult) (now : Nat) :
    (runCheck alerts rd st ledger store res now).events =
      (sslStep (statusStep alerts st ledger res now).1
        (statusStep alerts st ledger res now).2.2 res now).2 := rfl

theorem runCheck_state_eq (alerts : AlertsConfig) (rd : Nat) (st : MonitorState)
    (ledger : List Incident) (store : Store) (res : CheckResult) (now : Nat) :
    (runCheck alerts rd st ledger store res now).state =
      (sslStep (statusStep alerts st ledger res now).1
        (statusStep alerts st ledger res now).2.2 res now).1 := rfl

theorem runCheck_ledger_eq (alerts : AlertsConfig) (rd : Nat) (st : MonitorState)
    (ledger : List Incident) (store : Store) (res : CheckResult) (now : Nat) :
    (runCheck alerts rd st ledger store res now).ledger =
      (statusStep alerts st ledger res now).2.1 := rfl

theorem runCheck_store_eq (alerts : AlertsConfig) (rd : Nat) (st : MonitorState)
    (ledger : List Incident) (store : Store) (res : CheckResult) (now : Nat) :
    (runCheck alerts rd st ledger store res now).store =
      recordCheck res.name (toStored res) rd now store := rfl

theorem runCheck_notifiedDown_iff (alerts : AlertsConfig) (rd : Nat) (st : MonitorState)
    (ledger : List Incident) (store : Store) (res : CheckResult) (now : Nat) :
    (runCheck alerts rd st ledger store res now).events.notifiedDown = true ↔
      (res.success = false ∧ st.prevStatus ≠ some Status.down ∧
        st.lastAlert.getD 0 + effCooldownMs alerts < now) := by
  rw [runCheck_events_eq, (sslStep_preserves _ _ _ _).2.2.1]
  exact statusStep_fire_iff alerts st ledger res now

theorem runCheck_down_fire_state (alerts : AlertsConfig) (rd : Nat) (st : MonitorState)
    (ledger : List Incident) (store : Store) (res : CheckResult) (now : Nat)
    (h : (runCheck alerts rd st ledger store res now).events.notifiedDown = true) :
    (runCheck alerts rd st ledger store res now).state.lastAlert = some now := by
  rw [runCheck_events_eq, (sslStep_preserves _ _ _ _).2.2.1] at h
  rw [runCheck_state_eq, (sslStep_preserves _ _ _ _).1]
  exact statusStep_fire_lastAlert alerts st ledger res now h

theorem runCheck_down_silent_state (alerts : AlertsConfig) (rd : Nat) (st : MonitorState)
    (ledger : List Incident) (store : Store) (res : CheckResult) (now : Nat)
    (h : (runCheck alerts rd st ledger store res now).events.notifiedDown = false) :
    (runCheck alerts rd st ledger store res now).state.lastAlert = st.lastAlert := by
  rw [runCheck_events_eq, (sslStep_preserves _ _ _ _).2.2.1] at h
  rw [runCheck_state_eq, (sslStep_preserves _ _ _ _).1]
  exact statusStep_silent_lastAlert alerts st ledger res now h

theorem runCheck_notifiedSsl_iff (alerts : AlertsConfig) (rd : Nat) (st : MonitorState)
    (ledger : List Incident) (store : Store) (res : CheckResult) (now : Nat) :
    (runCheck alerts rd st ledger store res now).events.notifiedSsl = true ↔
      ((∃ info, res.sslInfo = some info ∧ info.daysRemaining ≤ sslWarningDays) ∧
        st.lastSslAlert.getD 0 + sslCooldownMs < now) := by
  rw [runCheck_events_eq]
  have h := sslStep_fire_iff (statusStep alerts st ledger res now).1
    (statusStep alerts st ledger res now).2.2 res now
    (statusStep_notifiedSsl alerts st ledger res now)
  rw [statusStep_lastSslAlert] at h
  exact h

theorem runCheck_ssl_fire_state (alerts : AlertsConfig) (rd : Nat) (st : MonitorState)
    (ledger : List Incident) (store : Store) (res : CheckResult) (now : Nat)
    (h : (runCheck alerts rd st ledger store res now).events.notifiedSsl = true) :
    (runCheck alerts rd st ledger store res now).state.lastSslAlert = some now := by
  rw [runCheck_events_eq] at h
  rw [runCheck_state_eq]
  exact sslStep_fire_state _ _ _ _ (statusStep_notifiedSsl alerts st ledger res now) h

theorem runCheck_ssl_silent_state (alerts : AlertsConfig) (rd : Nat) (st : MonitorState)
    (ledger : List Incident) (store : Store) (res : CheckResult) (now : Nat)
    (h : (runCheck alerts rd st ledger store res now).events.notifiedSsl = false) :
    (runCheck alerts rd st ledger store res now).state.lastSslAlert = st.lastSslAlert := by
  rw [runCheck_events_eq] at h
  rw [runCheck_state_eq, ← statusStep_lastSslAlert alerts st ledger res now]
  exact sslStep_silent_state _ _ _ _ h

theorem runTrace_cons (alerts : AlertsConfig) (rd : Nat) (st : MonitorState)
    (ledger : List Incident) (store : Store) (res : CheckResult) (now : Nat)
    (rest : List (CheckResult × Nat)) :
    runTrace alerts rd st ledger store ((res, now) :: rest) =
      ((runCheck alerts rd st ledger store res now).events, now) ::
        runTrace alerts rd (runCheck alerts rd st ledger store res now).state
          (runCheck alerts rd st ledger store res now).ledger
          (runCheck alerts rd st ledger store res now).store rest := rfl

theorem stampTimes_cons (g : CycleEvents → Bool) (ev : CycleEvents) (t : Nat)
    (tr : List (CycleEvents × Nat)) :
    stampTimes g ((ev, t) :: tr) =
      if g ev then t :: stampTimes g tr else stampTimes g tr := by
  by_cases h : g ev <;> simp [stampTimes, List.filter_cons, h]

/-- Generic suppression invariant: when a notification kind stamps its own
`lastAlert` entry (`f`) exactly when it fires (`g`), and firing requires the
previous stamp to be more than `c` ms old, then along any trace with
nondecreasing clock readings any two such notifications are more than `c` ms
apart. -/
theorem runTrace_gap (alerts : AlertsConfig) (rd : Nat)
    (f : MonitorState → Option Nat) (g : CycleEvents → Bool) (c : Nat)
    (hfire : ∀ (st : MonitorState) (ledger : List Incident) (store : Store)
        (res : CheckResult) (now : Nat),
      g (runCheck alerts rd st ledger store res now).events = true →
        (f st).getD 0 + c < now ∧
        f (runCheck alerts rd st ledger store res now).state = some now)
    (hsilent : ∀ (st : MonitorState) (ledger : List Incident) (store : Store)
        (res : CheckResult) (now : Nat),
      g (runCheck alerts rd st ledger store res now).events = false →
        f (runCheck alerts rd st ledger store res now).state = f st) :
    ∀ (inputs : List (CheckResult × Nat)) (st : MonitorState) (ledger : List Incident)
      (store : Store),
      List.Pairwise (fun a b : Nat => a ≤ b) (inputs.map Prod.snd) →
      (∀ t ∈ inputs.map Prod.snd, (f st).getD 0 ≤ t) →
      (∀ t ∈ stampTimes g (runTrace alerts rd st ledger store inputs),
        (f st).getD 0 + c < t)
      ∧ List.Pairwise (fun a b => a + c < b)
          (stampTimes g (runTrace alerts rd st ledger store inputs)) := by
  intro inputs
  induction inputs with
  | nil =>
    intro st ledger store _ _
    constructor
    · intro t ht
      simp [runTrace, stampTimes] at ht
    · simp [runTrace, stampTimes]
  | cons p rest ih =>
    obtain ⟨res, now⟩ := p
    intro st ledger store hsort hla
    rw [List.map_cons] at hsort
    obtain ⟨hnow_le, hsort2⟩ := List.pairwise_cons.mp hsort
    have hla_now : (f st).getD 0 ≤ now := hla now (by simp)
    have hla_rest : ∀ t ∈ rest.map Prod.snd, (f st).getD 0 ≤ t := by
      intro t ht
      refine hla t ?_
      rw [List.map_cons]
      exact List.mem_cons_of_mem _ ht
    rw [runTrace_cons, stampTimes_cons]
    cases hg : g (runCheck alerts rd st ledger store res now).events with
    | true =>
      rw [if_pos rfl]
      obtain ⟨hguard, hstamp⟩ := hfire st ledger store res now hg
      have ihr := ih (runCheck alerts rd st ledger store res now).state
        (runCheck alerts rd st ledger store res now).ledger
        (runCheck alerts rd st ledger store res now).store hsort2
        (by
          intro t ht
          rw [hstamp]
          simpa using hnow_le t ht)
      constructor
      · intro t ht
        rcases List.mem_cons.mp ht with rfl | hmem
        · exact hguard
        · have h2 := ihr.1 t hmem
          rw [hstamp] at h2
          simp only [Option.getD_some] at h2
          omega
      · refine List.pairwise_cons.mpr ⟨?_, ihr.2⟩
        intro t ht
        have h2 := ihr.1 t ht
        rw [hstamp] at h2
        simpa using h2
    | false =>
      rw [if_neg (by simp)]
      have hstate := hsilent st ledger store res now hg
      have ihr := ih (runCheck alerts rd st ledger store res now).state
        (runCheck alerts rd st ledger store res now).ledger
        (runCheck alerts rd st ledger store res now).store hsort2
        (by rw [hstate]; exact hla_rest)
      rw [hstate] at ihr
      exact ihr

/-- C2.  Along any execution trace (cycles with nondecreasing clock
readings, starting from a fresh target), any two down-notifications are more
than `cooldown_period` (default 300 s) apart, flapping included; a down
transition inside the cooldown window fires nothing but still records the
check in the history store, still flips the target's state to down, and
leaves the incident ledger untouched. -/
theorem runCheck_down_cooldown (alerts : AlertsConfig) (retentionDays : Nat) :
    (∀ (inputs : List (CheckResult × Nat)) (ledger : List Incident) (store : Store),
        List.Pairwise (fun a b : Nat => a ≤ b) (inputs.map Prod.snd) →
        List.Pairwise (fun a b => a + effCooldownMs alerts < b)
          (stampTimes (fun e => e.notifiedDown)
            (runTrace alerts retentionDays MonitorState.init ledger store inputs)))
    ∧ (∀ (st : MonitorState) (ledger : List Incident) (store : Store)
          (res : CheckResult) (now : Nat),
        res.success = false → st.prevStatus ≠ some Status.down →
        ¬(st.lastAlert.getD 0 + effCooldownMs alerts < now) →
        (runCheck alerts retentionDays st ledger store res now).events.notifiedDown = false
        ∧ (runCheck alerts retentionDays st ledger store res now).state.prevStatus =
            some Status.down
        ∧ (runCheck alerts retentionDays st ledger store res now).store =
            recordCheck res.name (toStored res) retentionDays now store
        ∧ (runCheck alerts retentionDays st ledger store res now).ledger = ledger) := by
  constructor
  · intro inputs ledger store hsort
    refine (runTrace_gap alerts retentionDays (fun s => s.lastAlert)
      (fun e => e.notifiedDown) (effCooldownMs alerts) ?_ ?_ inputs
      MonitorState.init ledger store hsort ?_).2
    · intro st ledger2 store2 res now hg
      exact ⟨((runCheck_notifiedDown_iff alerts retentionDays st ledger2 store2 res now).mp
          hg).2.2,
        runCheck_down_fire_state alerts retentionDays st ledger2 store2 res now hg⟩
    · intro st ledger2 store2 res now hg
      exact runCheck_down_silent_state alerts retentionDays st ledger2 store2 res now hg
    · intro t ht
      simp [MonitorState.init]
  · intro st ledger store res now hs hprev hcool
    have hdown : (runCheck alerts retentionDays st ledger store res now).events.notifiedDown =
        false := by
      have hnot : ¬((runCheck alerts retentionDays st ledger store res now).events.notifiedDown =
          true) := by
        rw [runCheck_notifiedDown_iff]
        rintro ⟨-, -, hg⟩
        exact hcool hg
      simpa using hnot
    have hg2 : ¬((now : Int) - ((st.lastAlert.getD 0 : Nat) : Int) >
        ((effCooldownMs alerts : Nat) : Int)) := by
      intro hgt
      exact hcool (by omega)
    refine ⟨hdown, ?_, rfl, ?_⟩
    · rw [runCheck_state_eq, (sslStep_preserves _ _ _ _).2.1,
        statusStep_prevStatus, hs]
      simp
    · rw [runCheck_ledger_eq, statusStep_suppressed_case alerts st ledger res now ⟨hs, hprev⟩ hg2]

/-- Witness for C2: a fail / recover / fail flap 60 s apart under the
default 300 s cooldown fires exactly one down-notification (so the pairwise
separation holds on a singleton) and the second down transition is
suppressed yet still recorded. -/
theorem runCheck_down_cooldown_witness :
    List.Pairwise (fun a b => a + effCooldownMs {} < b)
      (stampTimes (fun e => e.notifiedDown)
        (runTrace {} 5 MonitorState.init [] []
          [({ name := "t", url := "u", success := false, statusCode := some 500,
              responseTime := some 1, error := some "boom", sslInfo := none,
              timestamp := 1000000000 }, 1000000000),
           ({ name := "t", url := "u", success := true, statusCode := some 200,
              responseTime := some 1, error := none, sslInfo := none,
              timestamp := 1000060000 }, 1000060000),
           ({ name := "t", url := "u", success := false, statusCode := some 500,
              responseTime := some 1, error := some "boom", sslInfo := none,
              timestamp := 1000120000 }, 1000120000)]))
    ∧ (runCheck {} 5
        { prevStatus := some Status.up, lastAlert := some 1000000000, lastSslAlert := none }
        []
        [("t", [{ timestamp := 1000000000, success := false, responseTime := some 1,
                  statusCode := some 500, error := some "boom" }])]
        { name := "t", url := "u", success := false, statusCode := some 500,
          responseTime := some 1, error := some "boom", sslInfo := none,
          timestamp := 1000120000 } 1000120000).events.notifiedDown = false := by
  constructor
  · exact (runCheck_down_cooldown {} 5).1 _ [] [] (by
      simp only [List.map_cons, List.map_nil]
      exact List.pairwise_cons.mpr ⟨by intro b hb; simp at hb; omega,
        List.pairwise_cons.mpr ⟨by intro b hb; simp at hb; omega, List.pairwise_singleton _ _⟩⟩)
  · exact ((runCheck_down_cooldown {} 5).2
      { prevStatus := some Status.up, lastAlert := some 1000000000, lastSslAlert := none }
      []
      [("t", [{ timestamp := 1000000000, success := false, responseTime := some 1,
                statusCode := some 500, error := some "boom" }])]
      { name := "t", url := "u", success := false, statusCode := some 500,
        responseTime := some 1, error := some "boom", sslInfo := none,
        timestamp := 1000120000 } 1000120000 rfl (by simp) (by decide)).1

/-- C3.  A down→up transition with `alert_on_recovery` enabled (i.e. not
explicitly `false`, the default) always invokes the recovery notification
and resolves the target's open incident, whatever `lastAlert` holds — the
status-change cooldown never suppresses recovery. -/
theorem runCheck_recovery_unconditional (alerts : AlertsConfig) (retentionDays : Nat)
    (st : MonitorState) (ledger : List Incident) (store : Store) (res : CheckResult)
    (now : Nat) (hs : res.success = true) (hprev : st.prevStatus = some Status.down)
    (hrec : alerts.alert_on_recovery ≠ some false) :
    (runCheck alerts retentionDays st ledger store res now).events.notifiedUp = true
    ∧ (runCheck alerts retentionDays st ledger store res now).ledger =
        resolveIncident res.name now ledger
    ∧ (runCheck alerts retentionDays st ledger store res now).events.notifiedDown = false := by
  have hss := statusStep_recovery alerts st ledger res now hs hprev hrec
  refine ⟨?_, ?_, ?_⟩
  · rw [runCheck_events_eq, (sslStep_preserves _ _ _ _).2.2.2, hss]
  · rw [runCheck_ledger_eq, hss]
  · rw [runCheck_events_eq, (sslStep_preserves _ _ _ _).2.2.1, hss]

/-- Witness for C3: recovery fires and the open incident is resolved even
though the last down-alert was stamped 1 ms ago (deep inside the cooldown
window). -/
theorem runCheck_recovery_unconditional_witness :
    (runCheck {} 5
      { prevStatus := some Status.down, lastAlert := some 999999999, lastSslAlert := none }
      [{ service := "t", error := "boom", timestamp := 999999999, resolved := false,
         resolvedAt := none }]
      []
      { name := "t", url := "u", success := true, statusCode := some 200,
        responseTime := some 1, error := none, sslInfo := none,
        timestamp := 1000000000 } 1000000000).events.notifiedUp = true
    ∧ (runCheck {} 5
      { prevStatus := some Status.down, lastAlert := some 999999999, lastSslAlert := none }
      [{ service := "t", error := "boom", timestamp := 999999999, resolved := false,
         resolvedAt := none }]
      []
      { name := "t", url := "u", success := true, statusCode := some 200,
        responseTime := some 1, error := none, sslInfo := none,
        timestamp := 1000000000 } 1000000000).ledger =
      resolveIncident "t" 1000000000
        [{ service := "t", error := "boom", timestamp := 999999999, resolved := false,
           resolvedAt := none }] := by
  have h := runCheck_recovery_unconditional {} 5
    { prevStatus := some Status.down, lastAlert := some 999999999, lastSslAlert := none }
    [{ service := "t", error := "boom", timestamp := 999999999, resolved := false,
       resolvedAt := none }]
    []
    { name := "t", url := "u", success := true, statusCode := some 200,
      responseTime := some 1, error := none, sslInfo := none,
      timestamp := 1000000000 } 1000000000 rfl rfl (by simp)
  exact ⟨h.1, h.2.1⟩

/-- C7.  The SSL-expiry notification fires exactly when the outcome carries
certificate info with days-remaining ≤ 14 and the last SSL-expiry stamp for
the target is more than 24 h old (a never-alerted target has stamp 0, so it
qualifies whenever the clock is past 24 h after the epoch); the decision
ignores the target's up/down status, its status-change `lastAlert` stamp and
the cooldown config; along any trace with nondecreasing clocks the
notifications for a target are more than 24 h apart. -/
theorem runCheck_ssl_expiry (alerts : AlertsConfig) (retentionDays : Nat) :
    (∀ (st : MonitorState) (ledger : List Incident) (store : Store) (res : CheckResult)
        (now : Nat),
      (runCheck alerts retentionDays st ledger store res now).events.notifiedSsl = true ↔
        ((∃ info, res.sslInfo = some info ∧ info.daysRemaining ≤ sslWarningDays) ∧
          st.lastSslAlert.getD 0 + sslCooldownMs < now))
    ∧ (∀ st : MonitorState, st.lastSslAlert = none → ∀ now : Nat, sslCooldownMs < now →
        st.lastSslAlert.getD 0 + sslCooldownMs < now)
    ∧ (∀ (st st2 : MonitorState) (ledger ledger2 : List Incident) (store store2 : Store)
          (res : CheckResult) (now : Nat),
        st.lastSslAlert = st2.lastSslAlert →
        (runCheck alerts retentionDays st ledger store res now).events.notifiedSsl =
          (runCheck alerts retentionDays st2 ledger2 store2 res now).events.notifiedSsl)
    ∧ (∀ (inputs : List (CheckResult × Nat)) (ledger : List Incident) (store : Store),
        List.Pairwise (fun a b : Nat => a ≤ b) (inputs.map Prod.snd) →
        List.Pairwise (fun a b => a + sslCooldownMs < b)
          (stampTimes (fun e => e.notifiedSsl)
            (runTrace alerts retentionDays MonitorState.init ledger store inputs))) := by
  refine ⟨?_, ?_, ?_, ?_⟩
  · intro st ledger store res now
    exact runCheck_notifiedSsl_iff alerts retentionDays st ledger store res now
  · intro st h now hc
    rw [h]
    simpa using hc
  · intro st st2 ledger ledger2 store store2 res now hss
    have h1 := runCheck_notifiedSsl_iff alerts retentionDays st ledger store res now
    have h2 := runCheck_notifiedSsl_iff alerts retentionDays st2 ledger2 store2 res now
    rw [hss] at h1
    cases hb : (runCheck alerts retentionDays st ledger store res now).events.notifiedSsl with
    | true =>
      rw [h2.mpr (h1.mp hb)]
    | false =>
      cases hb2 : (runCheck alerts retentionDays st2 ledger2 store2 res now).events.notifiedSsl with
      | false => rfl
      | true =>
        have hcontr := (h1.mpr (h2.mp hb2)).symm.trans hb
        simp at hcontr
  · intro inputs ledger store hsort
    refine (runTrace_gap alerts retentionDays (fun s => s.lastSslAlert)
      (fun e => e.notifiedSsl) sslCooldownMs ?_ ?_ inputs
      MonitorState.init ledger store hsort ?_).2
    · intro st ledger2 store2 res now hg
      exact ⟨((runCheck_notifiedSsl_iff alerts retentionDays st ledger2 store2 res now).mp hg).2,
        runCheck_ssl_fire_state alerts retentionDays st ledger2 store2 res now hg⟩
    · intro st ledger2 store2 res now hg
      exact runCheck_ssl_silent_state alerts retentionDays st ledger2 store2 res now hg
    · intro t ht
      simp [MonitorState.init]

/-- Witness for C7: a certificate 10 days from expiry fires the SSL
notification even while the target is down and its status-change alert was
stamped 1 ms ago; with a stamp 24 h − 1 ms old it stays silent. -/
theorem runCheck_ssl_expiry_witness :
    (runCheck {} 5
      { prevStatus := some Status.down, lastAlert := some 999999999999,
        lastSslAlert := none }
      [] []
      { name := "t", url := "u", success := false, statusCode := some 500,
        responseTime := some 1, error := some "boom",
        sslInfo := some { valid := true, validFrom := "a", validTo := "b", issuer := none, subject := none, daysRemaining := 10 },
        timestamp := 1000000000000 } 1000000000000).events.notifiedSsl = true
    ∧ (runCheck {} 5
      { prevStatus := some Status.up, lastAlert := none,
        lastSslAlert := some 999913600001 }
      [] []
      { name := "t", url := "u", success := true, statusCode := some 200,
        responseTime := some 1, error := none,
        sslInfo := some { valid := true, validFrom := "a", validTo := "b", issuer := none, subject := none, daysRemaining := 10 },
        timestamp := 1000000000000 } 1000000000000).events.notifiedSsl = false := by
  constructor
  · exact ((runCheck_ssl_expiry {} 5).1
      { prevStatus := some Status.down, lastAlert := some 999999999999,
        lastSslAlert := none }
      [] []
      { name := "t", url := "u", success := false, statusCode := some 500,
        responseTime := some 1, error := some "boom",
        sslInfo := some { valid := true, validFrom := "a", validTo := "b", issuer := none, subject := none, daysRemaining := 10 },
        timestamp := 1000000000000 } 1000000000000).mpr
      ⟨⟨{ valid := true, validFrom := "a", validTo := "b", issuer := none, subject := none, daysRemaining := 10 }, rfl, by decide⟩,
        by decide⟩
  · have h := ((runCheck_ssl_expiry {} 5).1
      { prevStatus := some Status.up, lastAlert := none,
        lastSslAlert := some 999913600001 }
      [] []
      { name := "t", url := "u", success := true, statusCode := some 200,
        responseTime := some 1, error := none,
        sslInfo := some { valid := true, validFrom := "a", validTo := "b", issuer := none, subject := none, daysRemaining := 10 },
        timestamp := 1000000000000 } 1000000000000)
    have hnot : ¬((runCheck {} 5
        { prevStatus := some Status.up, lastAlert := none,
          lastSslAlert := some 999913600001 }
        [] []
        { name := "t", url := "u", success := true, statusCode := some 200,
          responseTime := some 1, error := none,
          sslInfo := some { valid := true, validFrom := "a", validTo := "b", issuer := none, subject := none, daysRemaining := 10 },
          timestamp := 1000000000000 } 1000000000000).events.notifiedSsl = true) := by
      rw [h]
      rintro ⟨-, hlt⟩
      exact absurd hlt (by decide)
    simpa using hnot

/-! ## Zero-valued configuration fields (source: the `||` defaulting at
`src/index.ts` lines 42-43, 88, 152) -/

theorem checkWithRetry_ext (probe : Nat → CheckResult) (a1 a2 : AlertsConfig)
    (h1 : effRetryCount a1 = effRetryCount a2) (h2 : effRetryDelayMs a1 = effRetryDelayMs a2) :
    checkWithRetry probe a1 = checkWithRetry probe a2 := by
  unfold checkWithRetry
  rw [h1, h2]

theorem runCheck_alerts_ext (a1 a2 : AlertsConfig) (hc : effCooldownMs a1 = effCooldownMs a2)
    (hr : a1.alert_on_recovery = a2.alert_on_recovery) (rd : Nat) (st : MonitorState)
    (ledger : List Incident) (store : Store) (res : CheckResult) (now : Nat) :
    runCheck a1 rd st ledger store res now = runCheck a2 rd st ledger store res now := by
  simp only [runCheck, statusStep, hc, hr]

/-- C10.  A `retry_count`, `retry_delay`, `cooldown_period` or per-target
`delay` configured as `0` is JS-falsy and behaves exactly as if absent: the
defaults 3 attempts, 10 s, 300 s and 60 s apply.  In particular
`retry_count = 0` still yields 3 probe attempts, and `cooldown_period = 0`
still suppresses a repeated down-alert 300 s after the previous one (and
allows it 1 ms later). -/
theorem zero_valued_config_defaults :
    (∀ (probe : Nat → CheckResult) (a : AlertsConfig),
        checkWithRetry probe { a with retry_count := some 0, retry_delay := some 0 } =
          checkWithRetry probe { a with retry_count := none, retry_delay := none })
    ∧ effRetryCount { retry_count := some 0 } = 3
    ∧ effRetryDelayMs { retry_delay := some 0 } = 10000
    ∧ (∀ (a : AlertsConfig) (retentionDays : Nat) (st : MonitorState)
          (ledger : List Incident) (store : Store) (res : CheckResult) (now : Nat),
        runCheck { a with cooldown_period := some 0 } retentionDays st ledger store res now =
          runCheck { a with cooldown_period := none } retentionDays st ledger store res now)
    ∧ effCooldownMs { cooldown_period := some 0 } = 300000
    ∧ (∀ u : UrlConfig, scheduleDelayMs { u with delay := some 0 } =
        scheduleDelayMs { u with delay := none })
    ∧ scheduleDelayMs { name := "t", url := "u", delay := some 0 } = 60000
    ∧ probeCount (checkWithRetry
        (fun _ => { name := "t", url := "u", success := false, statusCode := some 500,
                    responseTime := some 1, error := some "bad status", sslInfo := none,
                    timestamp := 0 })
        { retry_count := some 0, retry_delay := some 0 }).2 = 3
    ∧ (runCheck { cooldown_period := some 0 } 5
        { prevStatus := some Status.up, lastAlert := some 1000000000, lastSslAlert := none }
        [] []
        { name := "t", url := "u", success := false, statusCode := some 500,
          responseTime := some 1, error := some "down", sslInfo := none,
          timestamp := 1000300000 } 1000300000).events.notifiedDown = false
    ∧ (runCheck { cooldown_period := some 0 } 5
        { prevStatus := some Status.up, lastAlert := some 1000000000, lastSslAlert := none }
        [] []
        { name := "t", url := "u", success := false, statusCode := some 500,
          responseTime := some 1, error := some "down", sslInfo := none,
          timestamp := 1000300001 } 1000300001).events.notifiedDown = true := by
  refine ⟨?_, rfl, rfl, ?_, rfl, ?_, rfl, ?_, ?_, ?_⟩
  · intro probe a
    exact checkWithRetry_ext probe _ _ rfl rfl
  · intro a retentionDays st ledger store res now
    exact runCheck_alerts_ext _ _ rfl rfl retentionDays st ledger store res now
  · intro u
    rfl
  · decide
  · decide
  · decide

end Uptime
